import Mathlib

/-!
# Task1AplusB: the OpenCL host harness of `src/main.cpp`

A shallow embedding of `reportError`, `OCL_SAFE_CALL` and `main`.

* The OpenCL runtime is external to the program.  It is an arbitrary deterministic
  oracle: a function from the history of events so far and the current call to a
  response (status, values stored through the out-pointers, returned handle).
* `main` is a program in a small state-and-exit monad.  The state records the
  chronological trace of runtime calls, timer laps and the lines written to `std::cout`.
  A `return` from `main` and a thrown `std::runtime_error` both end the run.
* `size_t` is taken as 64 bits wide, `cl_uint` and `unsigned int` as 32 bits, and the
  `double` arithmetic of the throughput report is taken as exact (rationals).
* The element count `n`, a local constant of `main`, is a parameter of the body `run`;
  `main` instantiates it at the constant of the source.
-/

namespace AplusB

/-! ## Constants of the OpenCL header and of the platform -/

/-- Modelled from the spec: the "success" status of `CL/cl.h` (the header is not among the
sources); the value is the one of the Khronos header. -/
def CL_SUCCESS : Int := 0

/-- Modelled from the spec: the status for "no devices of this kind" of `CL/cl.h` (the header
is not among the sources); the value is the one of the Khronos header. -/
def CL_DEVICE_NOT_FOUND : Int := -1

/-- Modelled from the spec: the build-failure status of `CL/cl.h` (the header is not among the
sources); the value is the one of the Khronos header. -/
def CL_BUILD_PROGRAM_FAILURE : Int := -11

/-- The device kinds `CL_DEVICE_TYPE_GPU` and `CL_DEVICE_TYPE_CPU`. -/
inductive DeviceType
  | GPU
  | CPU
deriving DecidableEq, Repr

/-- The buffer access flags `CL_MEM_READ_ONLY` and `CL_MEM_WRITE_ONLY`. -/
inductive MemFlags
  | READ_ONLY
  | WRITE_ONLY
deriving DecidableEq, Repr

/-- Number of values of `size_t` (64 bits). -/
def SIZE_MOD : Nat := 2 ^ 64

/-- Number of values of `unsigned int` and `cl_uint` (32 bits). -/
def UINT_MOD : Nat := 2 ^ 32

/-- The value of `sizeof(float)`. -/
def sizeofFloat : Nat := 4

/-- Addition of `size_t`. -/
def szAdd (a b : Nat) : Nat := (a + b) % SIZE_MOD

/-- Subtraction of `size_t` (wraps around below zero). -/
def szSub (a b : Nat) : Nat := (a + SIZE_MOD - b % SIZE_MOD) % SIZE_MOD

/-- Multiplication of `size_t`. -/
def szMul (a b : Nat) : Nat := (a * b) % SIZE_MOD

/-- Division of `size_t`. -/
def szDiv (a b : Nat) : Nat := a / b

/-! ## `to_string` and `reportError` (main.cpp:14-32) -/

/-- The template `to_string` at the integer types it is used with: the decimal rendering
of `operator<<`. -/
def to_string (value : Int) : String := toString value

/-- The function `reportError`: returns normally on `CL_SUCCESS`, otherwise throws a
`std::runtime_error` with the message built at main.cpp:28. -/
def reportError (err : Int) (filename : String) (line : Int) : Except String Unit :=
  if CL_SUCCESS = err then
    pure ()
  else
    let message := "OpenCL error code " ++ to_string err ++ " encountered at " ++ filename
      ++ ":" ++ to_string line
    throw message

/-! ## Work sizing (main.cpp:156) -/

/-- The initial value of `wg_size`. -/
def wg_size : Nat := 128

/-- The initial value of `gw_size`: `(n + wg_size - 1) / wg_size * wg_size` in `size_t`. -/
def gw_size (n : Nat) : Nat :=
  szMul (szDiv (szSub (szAdd n wg_size) 1) wg_size) wg_size

/-! ## The runtime, the environment and the host state -/

/-- A value bound to a kernel argument by `clSetKernelArg`. -/
inductive KernelArg
  | mem (buffer : Nat)
  | uint (value : Nat)
deriving DecidableEq, Repr

/-- The calls into the OpenCL runtime made by `main`, with the arguments that vary.  Handles
(platforms, devices, contexts, queues, buffers, programs, kernels, events) are numbers; a
pointer argument that is `nullptr` at some call is an `Option` or a flag. -/
inductive Call
  /-- The call `clGetPlatformIDs(num_entries, platforms, num_platforms)`; the flag tells
  whether `num_platforms` is non-null (`platforms` is `nullptr` exactly then). -/
  | clGetPlatformIDs (num_entries : Nat) (num_platforms : Bool)
  /-- The call `clGetDeviceIDs(platform, device_type, num_entries, devices, num_devices)`;
  the flag tells whether `num_devices` is non-null (`devices` is `nullptr` exactly then). -/
  | clGetDeviceIDs (platform : Nat) (device_type : DeviceType) (num_entries : Nat)
      (num_devices : Bool)
  | clCreateContext (num_devices : Nat) (devices : List Nat)
  | clCreateCommandQueue (context device : Nat)
  | clCreateBuffer (context : Nat) (flags : MemFlags) (size : Nat)
  | clEnqueueWriteBuffer (queue buffer : Nat) (blocking : Bool) (offset size : Nat)
  | clEnqueueReadBuffer (queue buffer : Nat) (blocking : Bool) (offset size : Nat)
  | clCreateProgramWithSource (context count : Nat) (strings : List String)
      (lengths : List Nat)
  | clBuildProgram (program num_devices : Nat) (device_list : List Nat)
  /-- The call `clGetProgramBuildInfo(program, device, CL_PROGRAM_BUILD_LOG, size, value,
  size_ret)`; the flag tells whether `size_ret` is non-null (`value` is `nullptr` then). -/
  | clGetProgramBuildInfo (program device : Nat) (param_value_size : Nat) (size_ret : Bool)
  | clCreateKernel (program : Nat) (kernel_name : String)
  | clSetKernelArg (kernel arg_index arg_size : Nat) (arg_value : KernelArg)
  /-- The call `clEnqueueNDRangeKernel`; `local_work_size` is `none` for `nullptr`. -/
  | clEnqueueNDRangeKernel (queue kernel work_dim : Nat) (global_work_offset : Option Nat)
      (global_work_size : Nat) (local_work_size : Option Nat)
  | clWaitForEvents (num_events : Nat) (event : Nat)
deriving DecidableEq, Repr

/-- What is observable of a run, in chronological order. -/
inductive Event
  /-- A runtime call, the status it returned and the object or event it returned. -/
  | cl (call : Call) (status : Int) (handle : Nat)
  /-- A call of `timer::nextLap` (timer 0 times the kernel, timer 1 the transfers). -/
  | nextLap (timer : Nat)
  /-- The kernel source file was opened and read. -/
  | readFile (path : String)
deriving DecidableEq, Repr

/-- The answer of the runtime to one call. -/
structure Response (F : Type) where
  /-- The returned status (or the one stored through `errcode_ret`). -/
  status : Int
  /-- The value stored through the count or size out-pointer, when the runtime stores one. -/
  count : Option Nat
  /-- The handles stored in the output array, by position. -/
  ids : Nat → Nat
  /-- The returned object, or the event stored through the event out-pointer. -/
  handle : Nat
  /-- The floats stored in host memory by a read, by position. -/
  floats : Nat → F
  /-- The characters stored in the output buffer of a string query. -/
  chars : List Char

/-- The OpenCL runtime: its answer to a call, given the events so far. -/
def Runtime (F : Type) : Type := List Event → Call → Response F

/-- What `main` takes from outside the runtime: the `float` operations, the loader, the
random stream, the kernel source file, the timers and the expansions of `__FILE__` and of
`__LINE__` at the two macro calls that span several lines. -/
structure Env (F : Type) where
  /-- The literal `0` as a `float`. -/
  zero : F
  /-- Addition of `float`. -/
  fadd : F → F → F
  /-- Equality `==` of `float`; `!=` is its negation. -/
  feq : F → F → Bool
  /-- The result of `ocl_init()`. -/
  ocl_init : Bool
  /-- The value returned by the k-th call of `FastRandom::nextf`. -/
  nextf : Nat → F
  /-- The contents of `src/cl/aplusb.cl` (empty when the file cannot be opened). -/
  source : String
  /-- The value of `timer::lapAvg` at its report, by timer. -/
  lapAvg : Nat → ℚ
  /-- The value of `timer::lapStd` at its report, by timer. -/
  lapStd : Nat → ℚ
  /-- The expansion of `__FILE__`. -/
  file : String
  /-- The expansion of `__LINE__` in the macro call at main.cpp:160-162. -/
  lineDispatch : Int
  /-- The expansion of `__LINE__` in the macro call at main.cpp:175-177. -/
  lineReadback : Int

/-- One item written to `std::cout`. -/
inductive Out
  /-- A line of text. -/
  | line (text : String)
  /-- A line `label avg+-std s`. -/
  | timing (label : String) (avg std : ℚ)
  /-- A line `label value unit`. -/
  | value (label : String) (v : ℚ) (unit : String)
deriving DecidableEq

/-- The observable state of the host program. -/
structure Host where
  /-- Runtime calls, timer laps and file reads so far, oldest first. -/
  trace : List Event
  /-- What was written to `std::cout` so far, oldest first. -/
  out : List Out
deriving DecidableEq

/-- How a run ends: `main` returns a code, or an exception leaves `main`. -/
inductive Outcome
  | exit (code : Int)
  | fatal (what : String)
deriving DecidableEq, Repr

/-- The result of a step of the host program. -/
inductive Res (α : Type)
  | ok (a : α) (h : Host)
  | halt (o : Outcome) (h : Host)
deriving DecidableEq

/-- The final host state of a step. -/
def Res.host {α : Type} : Res α → Host
  | .ok _ h => h
  | .halt _ h => h

/-- Host programs: state passing, with an early end of the run. -/
def M (α : Type) : Type := Host → Res α

/-- Sequencing of host programs. -/
def M.bind {α β : Type} (m : M α) (f : α → M β) : M β := fun h =>
  match m h with
  | .ok a h1 => f a h1
  | .halt o h1 => .halt o h1

instance : Monad M where
  pure a := fun h => .ok a h
  bind := M.bind

/-- The statement `throw std::runtime_error(what)`. -/
def raise {α : Type} (what : String) : M α := fun h => .halt (.fatal what) h

/-- The statement `return code` of `main`. -/
def exitWith {α : Type} (code : Int) : M α := fun h => .halt (.exit code) h

/-- Writing one item to `std::cout`. -/
def print (o : Out) : M Unit := fun h => .ok () { h with out := h.out ++ [o] }

/-- Recording an event that is not a runtime call. -/
def record (e : Event) : M Unit := fun h => .ok () { h with trace := h.trace ++ [e] }

/-- A call into the runtime: the runtime answers from the events so far, and the call is
recorded with its status and the returned handle. -/
def clCall {F : Type} (rt : Runtime F) (c : Call) : M (Response F) := fun h =>
  let r := rt h.trace c
  .ok r { h with trace := h.trace ++ [Event.cl c r.status r.handle] }

/-- The macro `OCL_SAFE_CALL(expr)` on the status `expr`, expanded at `line`. -/
def OCL_SAFE_CALL {F : Type} (env : Env F) (err : Int) (line : Int) : M Unit :=
  match reportError err env.file line with
  | .ok _ => pure ()
  | .error what => raise what

/-! ## The body of `main` (main.cpp:35-191), by section -/

section Body

variable {F : Type}

/-- The handles of a `std::vector` of `count` handles after the runtime filled it. -/
def filled (count : Nat) (ids : Nat → Nat) : List Nat := (List.range count).map ids

/-- Device selection, main.cpp:36-77: the driver check, the platforms, then the GPU devices
of the first platform and, when there are none, its CPU devices.  Returns `device` and
`devices`. -/
def resolve (env : Env F) (rt : Runtime F) : M (Nat × List Nat) := do
  if !env.ocl_init then
    raise "Can't init OpenCL driver!"
  let r ← clCall rt (.clGetPlatformIDs 0 true)
  let platformsCount := r.count.getD 0
  OCL_SAFE_CALL env r.status 41
  print (.line ("Number of OpenCL platforms: " ++ to_string platformsCount))
  let r ← clCall rt (.clGetPlatformIDs platformsCount false)
  let platforms := filled platformsCount r.ids
  OCL_SAFE_CALL env r.status 44
  if platforms.isEmpty then
    print (.line "Platforms not found")
    exitWith 1
  let platform := platforms.headD 0
  let r ← clCall rt (.clGetDeviceIDs platform .GPU 0 true)
  let gpuDevicesCount := r.count.getD 0
  let error := r.status
  if error ≠ CL_DEVICE_NOT_FOUND then
    OCL_SAFE_CALL env error 56
  let devices ←
    if gpuDevicesCount > 0 then do
      let r ← clCall rt (.clGetDeviceIDs platform .GPU gpuDevicesCount false)
      OCL_SAFE_CALL env r.status 60
      pure (filled gpuDevicesCount r.ids)
    else do
      print (.line "GPU devices not found")
      let r ← clCall rt (.clGetDeviceIDs platform .CPU 0 true)
      let cpuDevicesCount := r.count.getD 0
      OCL_SAFE_CALL env r.status 64
      if cpuDevicesCount > 0 then do
        let r ← clCall rt (.clGetDeviceIDs platform .CPU cpuDevicesCount false)
        OCL_SAFE_CALL env r.status 67
        pure (filled cpuDevicesCount r.ids)
      else
        pure []
  if devices.isEmpty then
    print (.line "GPU and CPU devices not found")
    exitWith 1
  let device := devices.headD 0
  pure (device, devices)

/-- The loop at main.cpp:89-92 from index `i`, with `k` iterations left: `as[i]` and `bs[i]`
take the next two values of the random stream. -/
def fillFrom (env : Env F) : Nat → Nat → List F × List F → List F × List F
  | 0, _, v => v
  | k + 1, i, v =>
    fillFrom env k (i + 1) (v.1.set i (env.nextf (2 * i)), v.2.set i (env.nextf (2 * i + 1)))

/-- The handles and host vectors that the later sections of `main` use. -/
structure Resources (F : Type) where
  device : Nat
  devices : List Nat
  context : Nat
  commandQueue : Nat
  aBuf : Nat
  bBuf : Nat
  cBuf : Nat
  as : List F
  bs : List F
  cs : List F

/-- Context, queue, data and buffers, main.cpp:79-109. -/
def allocate (env : Env F) (rt : Runtime F) (n : Nat) (device : Nat) (devices : List Nat) :
    M (Resources F) := do
  let deviceAsVector := [device]
  let r ← clCall rt (.clCreateContext 1 deviceAsVector)
  let context := r.handle
  OCL_SAFE_CALL env r.status 80
  let r ← clCall rt (.clCreateCommandQueue context device)
  let commandQueue := r.handle
  OCL_SAFE_CALL env r.status 82
  let v := fillFrom env n 0 (List.replicate n env.zero, List.replicate n env.zero)
  let cs := List.replicate n env.zero
  print (.line ("Data generated for n=" ++ to_string n ++ "!"))
  let r ← clCall rt (.clCreateBuffer context .READ_ONLY (szMul sizeofFloat n))
  let aBuf := r.handle
  OCL_SAFE_CALL env r.status 96
  let r ← clCall rt (.clEnqueueWriteBuffer commandQueue aBuf true 0 (szMul sizeofFloat n))
  OCL_SAFE_CALL env r.status 98
  let r ← clCall rt (.clCreateBuffer context .READ_ONLY (szMul sizeofFloat n))
  let bBuf := r.handle
  OCL_SAFE_CALL env r.status 101
  let r ← clCall rt (.clEnqueueWriteBuffer commandQueue bBuf true 0 (szMul sizeofFloat n))
  OCL_SAFE_CALL env r.status 103
  let r ← clCall rt (.clCreateBuffer context .WRITE_ONLY (szMul sizeofFloat n))
  let cBuf := r.handle
  OCL_SAFE_CALL env r.status 106
  let r ← clCall rt (.clEnqueueReadBuffer commandQueue cBuf true 0 (szMul sizeofFloat n))
  let cs := (List.range cs.length).map r.floats
  OCL_SAFE_CALL env r.status 108
  print (.line "Buffers successfully created")
  pure { device := device, devices := devices, context := context,
         commandQueue := commandQueue, aBuf := aBuf, bBuf := bBuf, cBuf := cBuf,
         as := v.1, bs := v.2, cs := cs }

/-- The characters that `std::cout << log.data()` writes: those of the buffer of `logSize`
characters (zero-filled, then written by the runtime) before the first NUL. -/
def logText (logSize : Nat) (chars : List Char) : String :=
  String.mk (((chars ++ List.replicate logSize (Char.ofNat 0)).take logSize).takeWhile
    (fun c => c != Char.ofNat 0))

/-- Loading, creating and building the program, main.cpp:111-141.  Returns `program`. -/
def build (env : Env F) (rt : Runtime F) (res : Resources F) : M Nat := do
  record (.readFile "src/cl/aplusb.cl")
  let kernel_sources := env.source
  if kernel_sources.isEmpty then
    raise "Empty source file! May be you forgot to configure working directory properly?"
  let sourcePointers := [kernel_sources]
  let sourceLengths := [kernel_sources.utf8ByteSize]
  let r ← clCall rt
    (.clCreateProgramWithSource res.context sourcePointers.length sourcePointers sourceLengths)
  let program := r.handle
  OCL_SAFE_CALL env r.status 127
  let r ← clCall rt (.clBuildProgram program res.devices.length res.devices)
  let error := r.status
  if error = CL_BUILD_PROGRAM_FAILURE then
    let r ← clCall rt (.clGetProgramBuildInfo program res.device 0 true)
    let logSize := r.count.getD 0
    OCL_SAFE_CALL env r.status 132
    let r ← clCall rt (.clGetProgramBuildInfo program res.device logSize false)
    OCL_SAFE_CALL env r.status 134
    if logSize > 1 then
      print (.line "Log:")
      print (.line (logText logSize r.chars))
  OCL_SAFE_CALL env error 141
  pure program

/-- The value printed after "GFlops: " at main.cpp:168, for the mean lap time `avg`. -/
def gflops (n : Nat) (avg : ℚ) : ℚ := ((n : ℚ) / avg) / 1000000000

/-- The value printed after "VRAM bandwidth: " at main.cpp:169, for the mean lap time `avg`
of the kernel timer: `((double) 3 * n * sizeof(float)) / (1 << 30)`. -/
def vramBandwidth (n : Nat) (_avg : ℚ) : ℚ := ((3 : ℚ) * (n : ℚ) * (sizeofFloat : ℚ)) / (2 ^ 30 : ℚ)

/-- The value printed after "VRAM -> RAM bw: " at main.cpp:181, for the mean lap time `avg`
of the transfer timer: `((sizeof(float) * n) / t.lapAvg()) / (1 << 30)`. -/
def transferBandwidth (n : Nat) (avg : ℚ) : ℚ :=
  (((szMul sizeofFloat n : Nat) : ℚ) / avg) / (2 ^ 30 : ℚ)

/-- The loop at main.cpp:158-165 with `k` iterations left: submit the kernel, wait for its
event, record a lap. -/
def dispatchLoop (env : Env F) (rt : Runtime F) (res : Resources F) (kernel gw_size : Nat) :
    Nat → M Unit
  | 0 => pure ()
  | k + 1 => do
    let r ← clCall rt
      (.clEnqueueNDRangeKernel res.commandQueue kernel 1 none gw_size none)
    let kernel_complete := r.handle
    OCL_SAFE_CALL env r.status env.lineDispatch
    let r ← clCall rt (.clWaitForEvents 1 kernel_complete)
    OCL_SAFE_CALL env r.status 163
    record (.nextLap 0)
    dispatchLoop env rt res kernel gw_size k

/-- Kernel creation, argument binding, the timed dispatches and their report,
main.cpp:143-170. -/
def dispatch (env : Env F) (rt : Runtime F) (n : Nat) (res : Resources F) (program : Nat) :
    M Unit := do
  let kernelName := "aplusb"
  let r ← clCall rt (.clCreateKernel program kernelName)
  let kernel := r.handle
  OCL_SAFE_CALL env r.status 145
  let r ← clCall rt (.clSetKernelArg kernel 0 8 (.mem res.aBuf))
  OCL_SAFE_CALL env r.status 149
  let r ← clCall rt (.clSetKernelArg kernel 1 8 (.mem res.bBuf))
  OCL_SAFE_CALL env r.status 150
  let r ← clCall rt (.clSetKernelArg kernel 2 8 (.mem res.cBuf))
  OCL_SAFE_CALL env r.status 151
  let r ← clCall rt (.clSetKernelArg kernel 3 4 (.uint n))
  OCL_SAFE_CALL env r.status 152
  dispatchLoop env rt res kernel (gw_size n) 20
  print (.timing "Kernel average time: " (env.lapAvg 0) (env.lapStd 0))
  print (.value "GFlops: " (gflops n (env.lapAvg 0)) "")
  print (.value "VRAM bandwidth: " (vramBandwidth n (env.lapAvg 0)) " GB/s")

/-- The loop at main.cpp:174-179 with `k` iterations left: a blocking read of the output
buffer into `cs`, then a lap.  Returns `cs`. -/
def readLoop (env : Env F) (rt : Runtime F) (n : Nat) (res : Resources F) :
    Nat → List F → M (List F)
  | 0, cs => pure cs
  | k + 1, cs => do
    let r ← clCall rt
      (.clEnqueueReadBuffer res.commandQueue res.cBuf true 0 (szMul sizeofFloat n))
    let cs := (List.range cs.length).map r.floats
    OCL_SAFE_CALL env r.status env.lineReadback
    record (.nextLap 1)
    readLoop env rt n res k cs

/-- The timed transfers of the result and their report, main.cpp:172-182.  Returns `cs`. -/
def readback (env : Env F) (rt : Runtime F) (n : Nat) (res : Resources F) : M (List F) := do
  let cs ← readLoop env rt n res 20 res.cs
  print (.timing "Result data transfer time: " (env.lapAvg 1) (env.lapStd 1))
  print (.value "VRAM -> RAM bw: " (transferBandwidth n (env.lapAvg 1)) " GB/s")
  pure cs

/-- The loop at main.cpp:184-188 from index `i`, with `k` iterations left: throws at the
first index where `cs[i] != as[i] + bs[i]`. -/
def verifyFrom (env : Env F) (as bs cs : List F) : Nat → Nat → Except String Unit
  | 0, _ => pure ()
  | k + 1, i =>
    if !env.feq (cs.getD i env.zero) (env.fadd (as.getD i env.zero) (bs.getD i env.zero)) then
      throw "CPU and GPU results differ!"
    else
      verifyFrom env as bs cs k (i + 1)

/-- The verification loop at main.cpp:184-188 over the indices below `n`. -/
def verify (env : Env F) (n : Nat) (as bs cs : List F) : Except String Unit :=
  verifyFrom env as bs cs n 0

/-- The end of `main`, main.cpp:184-190: the verification loop, then `return 0`. -/
def check (env : Env F) (n : Nat) (as bs cs : List F) : M Int := do
  match verify env n as bs cs with
  | .ok _ => pure ()
  | .error what => raise what
  exitWith 0

/-- The body of `main` for the element count `n`. -/
def run (env : Env F) (rt : Runtime F) (n : Nat) : M Int := do
  let d ← resolve env rt
  let res ← allocate env rt n d.1 d.2
  let program ← build env rt res
  dispatch env rt n res program
  let cs ← readback env rt n res
  check env n res.as res.bs cs

/-- The start of a run: nothing called, nothing printed. -/
def Host.init : Host := { trace := [], out := [] }

/-- The function `main`: the body at `n = 100 * 1000 * 1000`, from the initial state. -/
def main (env : Env F) (rt : Runtime F) : Res Int := run env rt (100 * 1000 * 1000) Host.init

/-- The outcome of a finished step; a step that falls through has none. -/
def Res.outcome {α : Type} : Res α → Option Outcome
  | .ok _ _ => none
  | .halt o _ => some o

/-! ## A sample runtime for the concrete instances -/

/-- A platform of a runtime state: its handle and the handles of its devices, by kind, in
enumeration order. -/
structure Platform where
  id : Nat
  gpus : List Nat
  cpus : List Nat
deriving DecidableEq, Repr

/-- The devices of a kind on a platform. -/
def Platform.devices (p : Platform) : DeviceType → List Nat
  | .GPU => p.gpus
  | .CPU => p.cpus

/-- The settings of the sample runtime. -/
structure Sim (F : Type) where
  /-- The platforms, in enumeration order. -/
  platforms : List Platform
  /-- The status of `clGetPlatformIDs` when `num_entries` is 0 and no count is asked for. -/
  zeroEntryStatus : Int
  /-- The status of `clBuildProgram`. -/
  buildStatus : Int
  /-- The build log, with its terminating NUL. -/
  log : List Char
  /-- The floats that a read of a buffer stores. -/
  result : Nat → F

/-- The sample runtime: discovery answers from the platform list (an empty kind gives
`CL_DEVICE_NOT_FOUND` and count 0), the build and the zero-entry platform query answer with
the configured statuses, every other call succeeds and returns a fresh handle. -/
def simulate (s : Sim F) : Runtime F := fun hist c =>
  let base : Response F :=
    { status := CL_SUCCESS, count := none, ids := fun _ => 0, handle := hist.length + 1,
      floats := s.result, chars := [] }
  match c with
  | .clGetPlatformIDs _ true => { base with count := some s.platforms.length }
  | .clGetPlatformIDs 0 false => { base with status := s.zeroEntryStatus }
  | .clGetPlatformIDs _ false =>
    { base with ids := fun k => ((s.platforms.map Platform.id).getD k 0) }
  | .clGetDeviceIDs p kind _ flag =>
    match s.platforms.find? (fun q => q.id == p) with
    | none => { base with status := CL_DEVICE_NOT_FOUND, count := some 0 }
    | some q =>
      if (q.devices kind).isEmpty then
        { base with status := CL_DEVICE_NOT_FOUND, count := some 0 }
      else if flag then
        { base with count := some (q.devices kind).length }
      else
        { base with ids := fun k => (q.devices kind).getD k 0 }
  | .clBuildProgram _ _ _ => { base with status := s.buildStatus }
  | .clGetProgramBuildInfo _ _ _ true => { base with count := some s.log.length }
  | .clGetProgramBuildInfo _ _ _ false => { base with chars := s.log }
  | _ => base

/-- A sample environment over the integers: exact addition and equality, the driver loads,
the random stream counts up, and the kernel source is `source`. -/
def sampleEnv (source : String) : Env Int :=
  { zero := 0, fadd := fun x y => x + y, feq := fun x y => x == y, ocl_init := true,
    nextf := fun k => (k : Int), source := source, lapAvg := fun _ => 1, lapStd := fun _ => 0,
    file := "src/main.cpp", lineDispatch := 160, lineReadback := 175 }

/-- A sample runtime state: one platform with one GPU device; the build succeeds, and a
read stores at position `i` the sum of the two inputs of `sampleEnv`. -/
def sampleSim : Sim Int :=
  { platforms := [{ id := 7, gpus := [70], cpus := [71] }], zeroEntryStatus := CL_SUCCESS,
    buildStatus := CL_SUCCESS, log := [], result := fun i => (2 * i : Int) + (2 * i + 1) }

/-- The sample environment with the kernel source "kernel" whose timers report the mean lap
time `t`. -/
def timedEnv (t : ℚ) : Env Int :=
  { sampleEnv "kernel" with lapAvg := fun _ => t }

/-- A sample runtime state without platforms, whose platform query with zero entries
answers `CL_INVALID_VALUE` (-30). -/
def noPlatformSim : Sim Int :=
  { sampleSim with platforms := [], zeroEntryStatus := -30 }

/-- A sample runtime state: one platform that has neither GPU nor CPU devices. -/
def noDeviceSim : Sim Int :=
  { sampleSim with platforms := [{ id := 7, gpus := [], cpus := [] }] }

/-- A sample runtime state: two platforms, the first with CPU devices only. -/
def cpuOnlySim : Sim Int :=
  { sampleSim with platforms := [{ id := 7, gpus := [], cpus := [71, 72] },
                                 { id := 8, gpus := [80], cpus := [81] }] }

/-- The part of the OpenCL interface, or of the environment, an event belongs to. -/
inductive Group
  | discovery
  | memory
  | program
  | kernel
  | timer
  | file
deriving DecidableEq, Repr

/-- The group of a runtime call. -/
def Call.group : Call → Group
  | .clGetPlatformIDs _ _ => .discovery
  | .clGetDeviceIDs _ _ _ _ => .discovery
  | .clCreateContext _ _ => .memory
  | .clCreateCommandQueue _ _ => .memory
  | .clCreateBuffer _ _ _ => .memory
  | .clEnqueueWriteBuffer _ _ _ _ _ => .memory
  | .clEnqueueReadBuffer _ _ _ _ _ => .memory
  | .clCreateProgramWithSource _ _ _ _ => .program
  | .clBuildProgram _ _ _ => .program
  | .clGetProgramBuildInfo _ _ _ _ => .program
  | .clCreateKernel _ _ => .kernel
  | .clSetKernelArg _ _ _ _ => .kernel
  | .clEnqueueNDRangeKernel _ _ _ _ _ _ => .kernel
  | .clWaitForEvents _ _ => .kernel

/-- The group of an event. -/
def Event.group : Event → Group
  | .cl c _ _ => c.group
  | .nextLap _ => .timer
  | .readFile _ => .file

/-- The message thrown at main.cpp:116. -/
def emptySourceMessage : String :=
  "Empty source file! May be you forgot to configure working directory properly?"

/-- The outcome is neither the empty-source error nor a normal return with code 0. -/
def Abnormal (oc : Outcome) : Prop := oc ≠ .fatal emptySourceMessage ∧ oc ≠ .exit 0

/-- The message that `reportError` throws for the status `err` at `file:line`. -/
def oclMessage (err : Int) (file : String) (line : Int) : String :=
  "OpenCL error code " ++ toString err ++ " encountered at " ++ file ++ ":" ++ toString line

/-- A host program appends to the trace only events in `P`, writes only items in `Q`, and
ends the run only with outcomes in `R`. -/
structure Emits {α : Type} (P : Event → Prop) (Q : Out → Prop) (R : Outcome → Prop)
    (m : M α) : Prop where
  /-- The property, from every state. -/
  holds : ∀ h, (∃ l, (m h).host.trace = h.trace ++ l ∧ ∀ e ∈ l, P e) ∧
    (∃ o, (m h).host.out = h.out ++ o ∧ ∀ x ∈ o, Q x) ∧
    (∀ oc, (m h).outcome = some oc → R oc)

/-- A runtime answers the discovery calls of `main` as the runtime state `w` prescribes,
whatever happened before: the platform count and handles are those of `w`; for a platform of
`w` and a device kind, the count query reports the number of devices of the kind with
`CL_SUCCESS`, or `CL_DEVICE_NOT_FOUND` and no devices when there are none, and the handle
query stores the devices of the kind in enumeration order. -/
def Serves {F : Type} (rt : Runtime F) (w : List Platform) : Prop :=
  ∀ hist : List Event,
    (rt hist (.clGetPlatformIDs 0 true)).status = CL_SUCCESS ∧
    (rt hist (.clGetPlatformIDs 0 true)).count = some w.length ∧
    (w ≠ [] → (rt hist (.clGetPlatformIDs w.length false)).status = CL_SUCCESS ∧
      filled w.length (rt hist (.clGetPlatformIDs w.length false)).ids = w.map Platform.id) ∧
    ∀ p ∈ w, ∀ kind : DeviceType,
      (p.devices kind = [] →
        (rt hist (.clGetDeviceIDs p.id kind 0 true)).status = CL_DEVICE_NOT_FOUND ∧
        (rt hist (.clGetDeviceIDs p.id kind 0 true)).count.getD 0 = 0) ∧
      (p.devices kind ≠ [] →
        (rt hist (.clGetDeviceIDs p.id kind 0 true)).status = CL_SUCCESS ∧
        (rt hist (.clGetDeviceIDs p.id kind 0 true)).count = some (p.devices kind).length ∧
        (rt hist (.clGetDeviceIDs p.id kind (p.devices kind).length false)).status
          = CL_SUCCESS ∧
        filled (p.devices kind).length
          (rt hist (.clGetDeviceIDs p.id kind (p.devices kind).length false)).ids
          = p.devices kind)

/-- The sections of `run` after device selection, for the selected device `d.1` and the
vector `d.2` of devices. -/
def proceed {F : Type} (env : Env F) (rt : Runtime F) (n : Nat) (d : Nat × List Nat) :
    M Int := do
  let res ← allocate env rt n d.1 d.2
  let program ← build env rt res
  dispatch env rt n res program
  let cs ← readback env rt n res
  check env n res.as res.bs cs

/-- The sections of `run` before the kernel source is loaded. -/
def prepare {F : Type} (env : Env F) (rt : Runtime F) (n : Nat) : M (Resources F) := do
  let d ← resolve env rt
  allocate env rt n d.1 d.2

/-- The sections of `run` after the timed dispatches. -/
def conclude {F : Type} (env : Env F) (rt : Runtime F) (n : Nat) (res : Resources F) :
    M Int := do
  let cs ← readback env rt n res
  check env n res.as res.bs cs

/-- The three events of one iteration of the dispatch loop at main.cpp:158-165: the
submission with global size `g` and no local size, which returned the event `ev.1`; the wait
on that event; the lap of the kernel timer. -/
def lapEvents (queue kernel g : Nat) (ev : Nat × Nat) : List Event :=
  [.cl (.clEnqueueNDRangeKernel queue kernel 1 none g none) CL_SUCCESS ev.1,
   .cl (.clWaitForEvents 1 ev.1) CL_SUCCESS ev.2,
   .nextLap 0]

/-- The event is a kernel submission. -/
def Event.isDispatch : Event → Bool
  | .cl (.clEnqueueNDRangeKernel _ _ _ _ _ _) _ _ => true
  | _ => false

/-- The local work size passed by a kernel submission (`none` stands for `nullptr`); no
entry for other events. -/
def Event.localSizes : Event → List (Option Nat)
  | .cl (.clEnqueueNDRangeKernel _ _ _ _ _ l) _ _ => [l]
  | _ => []

end Body

/-! # Properties -/

/-! ## Work sizing -/

/-- C1: for every 32-bit element count `n`, with the local size `wg_size` of main.cpp:156
equal to 128, the global size computed there in 64-bit `size_t` satisfies `G >= n`,
`G mod 128 == 0` and `G < n + 128`; it is the least multiple of 128 that covers `n`, and it
equals the unbounded `(n + 127) / 128 * 128` (nothing wraps). -/
theorem gw_size_covers (n : Nat) (hn : n < UINT_MOD) :
    wg_size = 128 ∧ n ≤ gw_size n ∧ gw_size n % 128 = 0 ∧ gw_size n < n + 128 ∧
      (∀ m : Nat, n ≤ m → m % 128 = 0 → gw_size n ≤ m) ∧
      gw_size n = (n + 127) / 128 * 128 := by
  refine ⟨rfl, ?_⟩
  simp only [gw_size, szMul, szDiv, szSub, szAdd, wg_size, SIZE_MOD, UINT_MOD] at *
  refine ⟨?_, ?_, ?_, ?_, ?_⟩
  · omega
  · omega
  · omega
  · intro m h1 h2
    omega
  · omega

/-- The instances of C1 at element counts that are not multiples of 128, where the rounding
acts: `n = 5` gives 128, `n = 100000001` gives 100000128, and the largest 32-bit count
`n = 4294967295` gives 4294967296 without wrapping; the count of the source, 100000000, is
a multiple of 128 and is its own global size. -/
theorem gw_size_covers_witness :
    ((5 : Nat) < UINT_MOD ∧ gw_size 5 = 128 ∧
        (wg_size = 128 ∧ 5 ≤ gw_size 5 ∧ gw_size 5 % 128 = 0 ∧ gw_size 5 < 5 + 128 ∧
          (∀ m : Nat, 5 ≤ m → m % 128 = 0 → gw_size 5 ≤ m) ∧
          gw_size 5 = (5 + 127) / 128 * 128)) ∧
      ((100000001 : Nat) < UINT_MOD ∧ gw_size 100000001 = 100000128 ∧
        (wg_size = 128 ∧ 100000001 ≤ gw_size 100000001 ∧ gw_size 100000001 % 128 = 0 ∧
          gw_size 100000001 < 100000001 + 128 ∧
          (∀ m : Nat, 100000001 ≤ m → m % 128 = 0 → gw_size 100000001 ≤ m) ∧
          gw_size 100000001 = (100000001 + 127) / 128 * 128)) ∧
      ((4294967295 : Nat) < UINT_MOD ∧ gw_size 4294967295 = 4294967296 ∧
        (wg_size = 128 ∧ 4294967295 ≤ gw_size 4294967295 ∧ gw_size 4294967295 % 128 = 0 ∧
          gw_size 4294967295 < 4294967295 + 128 ∧
          (∀ m : Nat, 4294967295 ≤ m → m % 128 = 0 → gw_size 4294967295 ≤ m) ∧
          gw_size 4294967295 = (4294967295 + 127) / 128 * 128)) ∧
      gw_size 100000000 = 100000000 :=
  ⟨⟨by decide, by decide, gw_size_covers 5 (by decide)⟩,
    ⟨by decide, by decide, gw_size_covers 100000001 (by decide)⟩,
    ⟨by decide, by decide, gw_size_covers 4294967295 (by decide)⟩,
    by decide⟩

/-! ## Status-to-error conversion -/

/-- C6: `reportError` returns normally exactly on `CL_SUCCESS`; on every other status it
throws, and the message is exactly "OpenCL error code <err> encountered at <f>:<l>" with
the code and the line in decimal. -/
theorem reportError_iff (err : Int) (f : String) (l : Int) :
    (reportError err f l = .ok () ↔ err = CL_SUCCESS) ∧
      (err ≠ CL_SUCCESS → reportError err f l =
        .error ("OpenCL error code " ++ toString err ++ " encountered at " ++ f ++ ":"
          ++ toString l)) := by
  unfold reportError
  by_cases h : CL_SUCCESS = err
  · simp [h.symm, pure, Except.pure]
  · have h2 : ¬ err = CL_SUCCESS := fun e => h e.symm
    simp [h, h2, to_string, throw, throwThe, MonadExceptOf.throw]

/-- The instance of C6 at the build-failure status raised at main.cpp:141, and at success. -/
theorem reportError_iff_witness :
    reportError CL_SUCCESS "src/main.cpp" 141 = .ok () ∧
      reportError (-11) "src/main.cpp" 141 =
        .error "OpenCL error code -11 encountered at src/main.cpp:141" :=
  ⟨(reportError_iff CL_SUCCESS "src/main.cpp" 141).1.2 rfl,
    (reportError_iff (-11) "src/main.cpp" 141).2 (by decide)⟩

/-! ## The verification loop -/

/-- The loop from index `i` with `k` iterations left succeeds exactly when every index in
`[i, i + k)` passes the comparison. -/
theorem verifyFrom_ok_iff {F : Type} (env : Env F) (as bs cs : List F) (k i : Nat) :
    verifyFrom env as bs cs k i = .ok () ↔
      ∀ j, i ≤ j → j < i + k →
        env.feq (cs.getD j env.zero) (env.fadd (as.getD j env.zero) (bs.getD j env.zero))
          = true := by
  induction k generalizing i with
  | zero =>
    simp only [verifyFrom, pure, Except.pure, true_iff]
    intro j h1 h2
    omega
  | succ k ih =>
    unfold verifyFrom
    by_cases hq : env.feq (cs.getD i env.zero)
        (env.fadd (as.getD i env.zero) (bs.getD i env.zero)) = true
    · simp only [hq, Bool.not_true, Bool.false_eq_true, if_false, ih]
      constructor
      · intro h j h1 h2
        by_cases hj : j = i
        · subst hj
          exact hq
        · exact h j (by omega) (by omega)
      · intro h j h1 h2
        exact h j (by omega) (by omega)
    · have hq2 : env.feq (cs.getD i env.zero)
          (env.fadd (as.getD i env.zero) (bs.getD i env.zero)) = false := by
        simpa using hq
      simp only [hq2, Bool.not_false, if_true, throw, throwThe, MonadExceptOf.throw]
      constructor
      · intro h
        cases h
      · intro h
        have := h i (le_refl i) (by omega)
        rw [hq2] at this
        cases this

/-- The loop either succeeds or throws the mismatch error. -/
theorem verifyFrom_cases {F : Type} (env : Env F) (as bs cs : List F) (k i : Nat) :
    verifyFrom env as bs cs k i = .ok () ∨
      verifyFrom env as bs cs k i = .error "CPU and GPU results differ!" := by
  induction k generalizing i with
  | zero => exact Or.inl rfl
  | succ k ih =>
    unfold verifyFrom
    split
    · exact Or.inr rfl
    · exact ih (i + 1)

/-- C2: for `n > 0` and arrays `as`, `bs`, `cs` of length `n`, the end of `main` (the
verification loop, then `return 0`) returns 0 if and only if `cs[i] == as[i] + bs[i]` at every
index `i < n`, with `==` and `+` the operations of `float`; otherwise it throws the mismatch
error.  Neither case touches the trace or the output. -/
theorem check_exit_zero_iff {F : Type} (env : Env F) (n : Nat) (_hn : 0 < n)
    (as bs cs : List F) (ha : as.length = n) (hb : bs.length = n) (hc : cs.length = n)
    (h : Host) :
    (check env n as bs cs h = .halt (.exit 0) h ↔
        ∀ (i : Nat) (hi : i < n),
          env.feq (cs.get ⟨i, hc.symm ▸ hi⟩)
            (env.fadd (as.get ⟨i, ha.symm ▸ hi⟩) (bs.get ⟨i, hb.symm ▸ hi⟩)) = true) ∧
      (check env n as bs cs h = .halt (.exit 0) h ∨
        check env n as bs cs h = .halt (.fatal "CPU and GPU results differ!") h) := by
  have key : ∀ (i : Nat) (hi : i < n),
      env.feq (cs.getD i env.zero) (env.fadd (as.getD i env.zero) (bs.getD i env.zero))
        = env.feq (cs.get ⟨i, hc.symm ▸ hi⟩)
            (env.fadd (as.get ⟨i, ha.symm ▸ hi⟩) (bs.get ⟨i, hb.symm ▸ hi⟩)) := by
    intro i hi
    have h1 : i < cs.length := hc.symm ▸ hi
    have h2 : i < as.length := ha.symm ▸ hi
    have h3 : i < bs.length := hb.symm ▸ hi
    simp [List.getD_eq_getElem, h1, h2, h3]
  have hiff := verifyFrom_ok_iff env as bs cs n 0
  rcases verifyFrom_cases env as bs cs n 0 with hv | hv
  · have hall := hiff.1 hv
    have hrun : check env n as bs cs h = .halt (.exit 0) h := by
      simp [check, verify, hv, bind, M.bind, pure, exitWith]
    refine ⟨⟨fun _ i hi => ?_, fun _ => hrun⟩, Or.inl hrun⟩
    rw [← key i hi]
    exact hall i (Nat.zero_le i) (by omega)
  · have hrun : check env n as bs cs h = .halt (.fatal "CPU and GPU results differ!") h := by
      simp [check, verify, hv, bind, M.bind, raise]
    refine ⟨⟨fun hx => ?_, fun hx => ?_⟩, Or.inr hrun⟩
    · rw [hrun] at hx
      cases hx
    · exfalso
      have hall : verifyFrom env as bs cs n 0 = .ok () := by
        apply hiff.2
        intro j _ hj
        have hj2 : j < n := by omega
        rw [key j hj2]
        exact hx j hj2
      rw [hv] at hall
      cases hall

/-- The instances of C2 from the specification: `n = 16` with `a = [1.0]*16`, `b = [2.0]*16`
and `computed = [3.0]*16` returns 0, and `n = 4` with `computed = a` and `b` non-zero throws
the mismatch error. -/
theorem check_exit_zero_iff_witness :
    check (sampleEnv "") 16 (List.replicate 16 1) (List.replicate 16 2) (List.replicate 16 3)
        Host.init = .halt (.exit 0) Host.init ∧
      check (sampleEnv "") 4 [1, 1, 1, 1] [2, 2, 2, 2] [1, 1, 1, 1] Host.init
        = .halt (.fatal "CPU and GPU results differ!") Host.init := by
  constructor
  · refine (check_exit_zero_iff (sampleEnv "") 16 (by decide) (List.replicate 16 1)
      (List.replicate 16 2) (List.replicate 16 3) rfl rfl rfl Host.init).1.2 ?_
    intro i hi
    interval_cases i <;> rfl
  · have h := check_exit_zero_iff (sampleEnv "") 4 (by decide) [1, 1, 1, 1] [2, 2, 2, 2]
      [1, 1, 1, 1] rfl rfl rfl Host.init
    rcases h.2 with h2 | h2
    · have h3 := h.1.1 h2 0 (by decide)
      simp [sampleEnv] at h3
    · exact h2

/-! ## The throughput report -/

/-- The value printed as "VRAM bandwidth" does not depend on the mean lap time. -/
theorem vramBandwidth_const (n : Nat) (t : ℚ) :
    vramBandwidth n t = (3 * (n : ℚ) * 4) / 2 ^ 30 := by
  simp [vramBandwidth, sizeofFloat]

/-- C9 fails on the code: at `n = 100000000` the value printed as "VRAM bandwidth" is the
same for the mean durations 1 s and 1/2 s, is not doubled by halving the duration, and is
not the volume `3 * n * 4` divided by the duration; the transfer bandwidth printed at
main.cpp:181 does divide by the duration.  In two successful sample runs with `n = 4` that
differ only in the mean lap time (1 s and 1/2 s), the "VRAM bandwidth" line is the same,
`48 / 2 ^ 30`, while the "VRAM -> RAM bw" line doubles. -/
theorem vramBandwidth_ignores_duration :
    vramBandwidth 100000000 (1 / 2) = vramBandwidth 100000000 1 ∧
      vramBandwidth 100000000 (1 / 2) ≠ 2 * vramBandwidth 100000000 1 ∧
      vramBandwidth 100000000 (1 / 2) ≠ ((3 * 100000000 * 4 : ℚ) / (1 / 2)) / 2 ^ 30 ∧
      transferBandwidth 100000000 (1 / 2) = 2 * transferBandwidth 100000000 1 ∧
      ((run (timedEnv 1) (simulate sampleSim) 4 Host.init).outcome = some (.exit 0) ∧
        (run (timedEnv (1 / 2)) (simulate sampleSim) 4 Host.init).outcome = some (.exit 0) ∧
        Out.value "VRAM bandwidth: " (48 / 2 ^ 30) " GB/s"
          ∈ (run (timedEnv 1) (simulate sampleSim) 4 Host.init).host.out ∧
        Out.value "VRAM bandwidth: " (48 / 2 ^ 30) " GB/s"
          ∈ (run (timedEnv (1 / 2)) (simulate sampleSim) 4 Host.init).host.out ∧
        Out.value "VRAM -> RAM bw: " (16 / 2 ^ 30) " GB/s"
          ∈ (run (timedEnv 1) (simulate sampleSim) 4 Host.init).host.out ∧
        Out.value "VRAM -> RAM bw: " (32 / 2 ^ 30) " GB/s"
          ∈ (run (timedEnv (1 / 2)) (simulate sampleSim) 4 Host.init).host.out) := by
  refine ⟨?_, ?_, ?_, ?_, by decide!⟩
  · simp [vramBandwidth]
  · simp only [vramBandwidth_const]
    norm_num
  · simp only [vramBandwidth_const]
    norm_num
  · simp only [transferBandwidth, szMul, sizeofFloat, SIZE_MOD]
    norm_num

/-! ## Reasoning about host programs -/

section Logic

variable {F α β : Type}

theorem bind_ok {m : M α} {f : α → M β} {h h1 : Host} {a : α} (e : m h = .ok a h1) :
    (m >>= f) h = f a h1 := by
  show M.bind m f h = f a h1
  simp [M.bind, e]

theorem bind_halt {m : M α} {f : α → M β} {h h1 : Host} {o : Outcome}
    (e : m h = .halt o h1) : (m >>= f) h = .halt o h1 := by
  show M.bind m f h = .halt o h1
  simp [M.bind, e]

theorem Emits.pure {P : Event → Prop} {Q : Out → Prop} {R : Outcome → Prop} (a : α) :
    Emits P Q R (Pure.pure a : M α) := by
  refine ⟨fun h => ?_⟩
  exact ⟨⟨[], by simp [Pure.pure, Res.host], by simp⟩, ⟨[], by simp [Pure.pure, Res.host], by simp⟩,
    by simp [Pure.pure, Res.outcome]⟩

theorem Emits.bind {P : Event → Prop} {Q : Out → Prop} {R : Outcome → Prop} {m : M α}
    {f : α → M β} (hm : Emits P Q R m) (hf : ∀ a, Emits P Q R (f a)) :
    Emits P Q R (m >>= f) := by
  refine ⟨fun h => ?_⟩
  obtain ⟨⟨l, hl, hP⟩, ⟨o, ho, hQ⟩, hR⟩ := hm.holds h
  cases e : m h with
  | halt oc h1 =>
    rw [bind_halt e]
    rw [e] at hl ho hR
    exact ⟨⟨l, hl, hP⟩, ⟨o, ho, hQ⟩, hR⟩
  | ok a h1 =>
    rw [bind_ok e]
    rw [e] at hl ho
    simp only [Res.host] at hl ho
    obtain ⟨⟨l2, hl2, hP2⟩, ⟨o2, ho2, hQ2⟩, hR2⟩ := (hf a).holds h1
    refine ⟨⟨l ++ l2, ?_, ?_⟩, ⟨o ++ o2, ?_, ?_⟩, hR2⟩
    · rw [hl2, hl, List.append_assoc]
    · intro x hx
      rcases List.mem_append.1 hx with hx | hx
      · exact hP x hx
      · exact hP2 x hx
    · rw [ho2, ho, List.append_assoc]
    · intro x hx
      rcases List.mem_append.1 hx with hx | hx
      · exact hQ x hx
      · exact hQ2 x hx

theorem Emits.raise {P : Event → Prop} {Q : Out → Prop} {R : Outcome → Prop} (what : String)
    (hR : R (.fatal what)) : Emits P Q R (raise what : M α) := by
  refine ⟨fun h => ?_⟩
  refine ⟨⟨[], by simp [AplusB.raise, Res.host], by simp⟩,
    ⟨[], by simp [AplusB.raise, Res.host], by simp⟩, ?_⟩
  intro oc hoc
  simp only [AplusB.raise, Res.outcome, Option.some.injEq] at hoc
  exact hoc ▸ hR

theorem Emits.exitWith {P : Event → Prop} {Q : Out → Prop} {R : Outcome → Prop} (code : Int)
    (hR : R (.exit code)) : Emits P Q R (exitWith code : M α) := by
  refine ⟨fun h => ?_⟩
  refine ⟨⟨[], by simp [AplusB.exitWith, Res.host], by simp⟩,
    ⟨[], by simp [AplusB.exitWith, Res.host], by simp⟩, ?_⟩
  intro oc hoc
  simp only [AplusB.exitWith, Res.outcome, Option.some.injEq] at hoc
  exact hoc ▸ hR

theorem Emits.print {P : Event → Prop} {Q : Out → Prop} {R : Outcome → Prop} (x : Out)
    (hQ : Q x) : Emits P Q R (print x) := by
  refine ⟨fun h => ?_⟩
  refine ⟨⟨[], by simp [AplusB.print, Res.host], by simp⟩,
    ⟨[x], by simp [AplusB.print, Res.host], by simpa using hQ⟩, ?_⟩
  simp [AplusB.print, Res.outcome]

theorem Emits.record {P : Event → Prop} {Q : Out → Prop} {R : Outcome → Prop} (e : Event)
    (hP : P e) : Emits P Q R (record e) := by
  refine ⟨fun h => ?_⟩
  refine ⟨⟨[e], by simp [AplusB.record, Res.host], by simpa using hP⟩,
    ⟨[], by simp [AplusB.record, Res.host], by simp⟩, ?_⟩
  simp [AplusB.record, Res.outcome]

theorem Emits.clCall {P : Event → Prop} {Q : Out → Prop} {R : Outcome → Prop}
    (rt : Runtime F) (c : Call) (hP : ∀ s k, P (.cl c s k)) :
    Emits P Q R (clCall rt c) := by
  refine ⟨fun h => ?_⟩
  refine ⟨⟨[.cl c (rt h.trace c).status (rt h.trace c).handle],
      by simp [AplusB.clCall, Res.host], ?_⟩,
    ⟨[], by simp [AplusB.clCall, Res.host], by simp⟩, ?_⟩
  · intro e he
    simp only [List.mem_singleton] at he
    exact he ▸ hP _ _
  · simp [AplusB.clCall, Res.outcome]

theorem OCL_SAFE_CALL_ok (env : Env F) (line : Int) (h : Host) :
    OCL_SAFE_CALL env CL_SUCCESS line h = .ok () h := by
  simp [OCL_SAFE_CALL, reportError, Pure.pure, Except.pure]

theorem OCL_SAFE_CALL_error (env : Env F) (err : Int) (line : Int) (h : Host)
    (he : err ≠ CL_SUCCESS) :
    OCL_SAFE_CALL env err line h = .halt (.fatal (oclMessage err env.file line)) h := by
  have h2 : ¬ CL_SUCCESS = err := fun e => he e.symm
  simp [OCL_SAFE_CALL, reportError, h2, throw, throwThe, MonadExceptOf.throw, AplusB.raise,
    oclMessage, to_string]

theorem Emits.safe {P : Event → Prop} {Q : Out → Prop} {R : Outcome → Prop} (env : Env F)
    (err line : Int) (hR : ∀ e l, R (.fatal (oclMessage e env.file l))) :
    Emits P Q R (OCL_SAFE_CALL env err line) := by
  refine ⟨fun h => ?_⟩
  by_cases he : err = CL_SUCCESS
  · subst he
    rw [OCL_SAFE_CALL_ok]
    exact ⟨⟨[], by simp [Res.host], by simp⟩, ⟨[], by simp [Res.host], by simp⟩,
      by simp [Res.outcome]⟩
  · rw [OCL_SAFE_CALL_error env err line h he]
    refine ⟨⟨[], by simp [Res.host], by simp⟩, ⟨[], by simp [Res.host], by simp⟩, ?_⟩
    intro oc hoc
    simp only [Res.outcome, Option.some.injEq] at hoc
    exact hoc ▸ hR _ _

theorem Emits.mono {P P2 : Event → Prop} {Q Q2 : Out → Prop} {R R2 : Outcome → Prop}
    {m : M α} (hm : Emits P Q R m) (hP : ∀ e, P e → P2 e) (hQ : ∀ x, Q x → Q2 x)
    (hR : ∀ oc, R oc → R2 oc) : Emits P2 Q2 R2 m := by
  refine ⟨fun h => ?_⟩
  obtain ⟨⟨l, hl, hPl⟩, ⟨o, ho, hQo⟩, hRo⟩ := hm.holds h
  exact ⟨⟨l, hl, fun e he => hP e (hPl e he)⟩, ⟨o, ho, fun x hx => hQ x (hQo x hx)⟩,
    fun oc hoc => hR oc (hRo oc hoc)⟩

end Logic

section Phases

variable {F : Type}

theorem ne_of_head {s t : String} (h : s.data.head? ≠ t.data.head?) : s ≠ t :=
  fun e => h (e ▸ rfl)

theorem oclMessage_ne_emptySource (e : Int) (f : String) (l : Int) :
    oclMessage e f l ≠ emptySourceMessage := by
  apply ne_of_head
  simp [oclMessage, emptySourceMessage, String.data_append]

theorem oclMessage_outcome (e : Int) (f : String) (l : Int) :
    Outcome.fatal (oclMessage e f l) ≠ Outcome.fatal emptySourceMessage := by
  intro h
  exact oclMessage_ne_emptySource e f l (Outcome.fatal.inj h)

theorem abnormal_ocl (e : Int) (f : String) (l : Int) :
    Abnormal (.fatal (oclMessage e f l)) :=
  ⟨oclMessage_outcome e f l, fun h => Outcome.noConfusion h⟩

theorem abnormal_exit_one : Abnormal (.exit 1) :=
  ⟨fun h => Outcome.noConfusion h, by decide⟩

theorem abnormal_init : Abnormal (.fatal "Can't init OpenCL driver!") :=
  ⟨by decide, fun h => Outcome.noConfusion h⟩

theorem line_ne_log (s : String) (c : Char) (h : s.data.head? = some c) (hc : c ≠ 'L') :
    Out.line s ≠ Out.line "Log:" := by
  intro e
  have e2 : s = "Log:" := Out.line.inj e
  rw [e2] at h
  simp at h
  exact hc h.symm

/-- Device selection calls only the discovery interface, does not print the line "Log:" and
ends the run only abnormally. -/
theorem resolve_emits (env : Env F) (rt : Runtime F) :
    Emits (fun e => e.group = .discovery) (fun x => x ≠ .line "Log:")
      Abnormal (resolve env rt) := by
  unfold resolve
  dsimp only
  repeat' first
    | refine Emits.bind ?_ (fun _ => ?_)
    | apply Emits.pure
    | apply Emits.clCall
    | apply Emits.safe
    | apply Emits.raise
    | apply Emits.exitWith
    | apply Emits.print
    | apply Emits.record
    | split
  all_goals first
    | (intro _ _; rfl)
    | (intro _ _; exact abnormal_ocl _ _ _)
    | exact abnormal_exit_one
    | exact abnormal_init
    | decide
    | (refine line_ne_log _ 'N' ?_ (by decide); simp [String.data_append])

/-- Allocation calls only the memory interface, does not print the line "Log:" and does not
throw the empty-source error. -/
theorem allocate_emits (env : Env F) (rt : Runtime F) (n device : Nat) (devices : List Nat) :
    Emits (fun e => e.group = .memory) (fun x => x ≠ .line "Log:")
      Abnormal (allocate env rt n device devices) := by
  unfold allocate
  dsimp only
  repeat' first
    | refine Emits.bind ?_ (fun _ => ?_)
    | apply Emits.pure
    | apply Emits.clCall
    | apply Emits.safe
    | apply Emits.raise
    | apply Emits.exitWith
    | apply Emits.print
    | apply Emits.record
    | split
  all_goals first
    | (intro _ _; rfl)
    | (intro _ _; exact abnormal_ocl _ _ _)
    | exact abnormal_exit_one
    | exact abnormal_init
    | decide
    | (refine line_ne_log _ 'D' ?_ (by decide); simp [String.data_append])

/-- Everything before the kernel source is loaded calls only the discovery and memory
interfaces. -/
theorem prepare_emits (env : Env F) (rt : Runtime F) (n : Nat) :
    Emits (fun e => e.group = .discovery ∨ e.group = .memory) (fun x => x ≠ .line "Log:")
      Abnormal (prepare env rt n) := by
  unfold prepare
  refine Emits.bind ?_ (fun d => ?_)
  · exact (resolve_emits env rt).mono (fun _ h => Or.inl h) (fun _ h => h) (fun _ h => h)
  · exact (allocate_emits env rt n d.1 d.2).mono (fun _ h => Or.inr h) (fun _ h => h)
      (fun _ h => h)

/-- With a non-empty kernel source, the build section reads the file and calls only the
program interface, and does not throw the empty-source error. -/
theorem build_emits (env : Env F) (rt : Runtime F) (res : Resources F)
    (hsrc : env.source ≠ "") :
    Emits (fun e => e.group = .file ∨ e.group = .program) (fun _ => True)
      Abnormal (build env rt res) := by
  have hne : env.source.isEmpty = false := by
    cases hq : env.source.isEmpty with
    | false => rfl
    | true => exact absurd ((String.isEmpty_iff _).1 hq) hsrc
  unfold build
  dsimp only
  rw [hne]
  repeat' first
    | refine Emits.bind ?_ (fun _ => ?_)
    | apply Emits.pure
    | apply Emits.clCall
    | apply Emits.safe
    | apply Emits.raise
    | apply Emits.exitWith
    | apply Emits.print
    | apply Emits.record
    | split
  all_goals first
    | trivial
    | (intro _ _; exact Or.inr rfl)
    | (intro _ _; exact abnormal_ocl _ _ _)

/-- The dispatch loop calls only the kernel interface and the timer. -/
theorem dispatchLoop_emits (env : Env F) (rt : Runtime F) (res : Resources F)
    (kernel g k : Nat) :
    Emits (fun e => e.group = .kernel ∨ e.group = .timer) (fun x => x ≠ .line "Log:")
      Abnormal (dispatchLoop env rt res kernel g k) := by
  induction k with
  | zero => exact Emits.pure ()
  | succ k ih =>
    unfold dispatchLoop
    dsimp only
    repeat' first
      | exact ih
      | refine Emits.bind ?_ (fun _ => ?_)
      | apply Emits.clCall
      | apply Emits.safe
      | apply Emits.record
    all_goals first
      | (intro _ _; exact Or.inl rfl)
      | (intro _ _; exact abnormal_ocl _ _ _)
      | exact Or.inr rfl

/-- The dispatch section calls only the kernel interface and the timer. -/
theorem dispatch_emits (env : Env F) (rt : Runtime F) (n : Nat) (res : Resources F)
    (program : Nat) :
    Emits (fun e => e.group = .kernel ∨ e.group = .timer) (fun x => x ≠ .line "Log:")
      Abnormal (dispatch env rt n res program) := by
  unfold dispatch
  dsimp only
  repeat' first
    | exact dispatchLoop_emits env rt res _ _ _
    | refine Emits.bind ?_ (fun _ => ?_)
    | apply Emits.clCall
    | apply Emits.safe
    | apply Emits.print
  all_goals first
    | (intro _ _; exact Or.inl rfl)
    | (intro _ _; exact abnormal_ocl _ _ _)
    | (intro h; cases h)

/-- The transfer loop calls only the memory interface and the timer. -/
theorem readLoop_emits (env : Env F) (rt : Runtime F) (n : Nat) (res : Resources F) (k : Nat)
    (cs : List F) :
    Emits (fun e => e.group = .memory ∨ e.group = .timer) (fun x => x ≠ .line "Log:")
      Abnormal (readLoop env rt n res k cs) := by
  induction k generalizing cs with
  | zero => exact Emits.pure cs
  | succ k ih =>
    unfold readLoop
    dsimp only
    repeat' first
      | exact ih _
      | refine Emits.bind ?_ (fun _ => ?_)
      | apply Emits.clCall
      | apply Emits.safe
      | apply Emits.record
    all_goals first
      | (intro _ _; exact Or.inl rfl)
      | (intro _ _; exact abnormal_ocl _ _ _)
      | exact Or.inr rfl

/-- The end of `main` calls nothing and prints nothing. -/
theorem check_emits (env : Env F) (n : Nat) (as bs cs : List F) :
    Emits (fun _ => False) (fun _ => False) (fun oc => oc ≠ .fatal emptySourceMessage)
      (check env n as bs cs) := by
  unfold check verify
  rcases verifyFrom_cases env as bs cs n 0 with hv | hv
  · rw [hv]
    refine Emits.bind (Emits.pure _) (fun _ => Emits.exitWith _ (by decide))
  · rw [hv]
    refine Emits.bind (Emits.raise _ (by decide)) (fun _ => Emits.exitWith _ (by decide))

/-- Everything after the timed dispatches calls only the memory interface and the timer. -/
theorem conclude_emits (env : Env F) (rt : Runtime F) (n : Nat) (res : Resources F) :
    Emits (fun e => e.group = .memory ∨ e.group = .timer) (fun x => x ≠ .line "Log:")
      (fun oc => oc ≠ .fatal emptySourceMessage) (conclude env rt n res) := by
  unfold conclude readback
  repeat' first
    | exact (readLoop_emits env rt n res _ _).mono (fun _ h => h) (fun _ h => h)
        (fun _ h => h.1)
    | exact (check_emits env n _ _ _).mono (fun _ h => h.elim) (fun _ h => h.elim)
        (fun _ h => h)
    | refine Emits.bind ?_ (fun _ => ?_)
    | apply Emits.pure
    | apply Emits.print
  all_goals first
    | decide
    | (intro h; cases h)

/-- The body of `main` is its sections in sequence. -/
theorem run_eq (env : Env F) (rt : Runtime F) (n : Nat) :
    run env rt n = (prepare env rt n >>= fun res => build env rt res >>= fun program =>
      dispatch env rt n res program >>= fun _ => conclude env rt n res) := by
  funext h
  show M.bind _ _ h = M.bind (M.bind _ _) _ h
  simp only [M.bind]
  cases resolve env rt h <;> rfl

end Phases

/-! ## Running host programs step by step -/

section Steps

variable {F α β γ : Type}

theorem pure_bind_apply (a : α) (f : α → M β) (h : Host) : (pure a >>= f) h = f a h := rfl

theorem bind_assoc_apply (m : M α) (g : α → M β) (f : β → M γ) (h : Host) :
    ((m >>= g) >>= f) h = (m >>= fun a => g a >>= f) h := by
  show M.bind (M.bind m g) f h = M.bind m (fun a => M.bind (g a) f) h
  simp only [M.bind]
  cases m h <;> rfl

theorem clCall_bind_apply (rt : Runtime F) (c : Call) (f : Response F → M β) (h : Host) :
    (clCall rt c >>= f) h = f (rt h.trace c)
      { trace := h.trace ++ [.cl c (rt h.trace c).status (rt h.trace c).handle],
        out := h.out } := rfl

theorem print_bind_apply (x : Out) (f : Unit → M β) (h : Host) :
    (print x >>= f) h = f () { trace := h.trace, out := h.out ++ [x] } := rfl

theorem record_bind_apply (e : Event) (f : Unit → M β) (h : Host) :
    (record e >>= f) h = f () { trace := h.trace ++ [e], out := h.out } := rfl

theorem raise_bind_apply (what : String) (f : α → M β) (h : Host) :
    ((raise what : M α) >>= f) h = .halt (.fatal what) h := rfl

theorem exitWith_bind_apply (code : Int) (f : α → M β) (h : Host) :
    ((exitWith code : M α) >>= f) h = .halt (.exit code) h := rfl

theorem safe_eq_pure (env : Env F) (line : Int) : OCL_SAFE_CALL env CL_SUCCESS line = pure () := by
  funext h
  exact OCL_SAFE_CALL_ok env line h

theorem safe_eq_raise (env : Env F) (err line : Int) (he : err ≠ CL_SUCCESS) :
    OCL_SAFE_CALL env err line = raise (oclMessage err env.file line) := by
  funext h
  exact OCL_SAFE_CALL_error env err line h he

end Steps

section Discovery

variable {F : Type}

theorem run_of_resolve_halt (env : Env F) (rt : Runtime F) (n : Nat) {h h1 : Host}
    {o : Outcome} (e : resolve env rt h = .halt o h1) : run env rt n h = .halt o h1 := by
  unfold run
  exact bind_halt e

theorem filled_zero (ids : Nat → Nat) : filled 0 ids = [] := rfl

/-- With no platform reported, device selection makes the platform count query and, when
that succeeds, the platform query with zero entries; it ends the run with exit code 1 when
both succeed and with the fatal status error of the failing one otherwise. -/
theorem resolve_zero_count (env : Env F) (rt : Runtime F) (hinit : env.ocl_init = true)
    (hcount : (rt [] (.clGetPlatformIDs 0 true)).count.getD 0 = 0) :
    ∃ s1 k1, (s1 ≠ CL_SUCCESS ∧ resolve env rt Host.init =
        .halt (.fatal (oclMessage s1 env.file 41))
          { trace := [.cl (.clGetPlatformIDs 0 true) s1 k1], out := [] }) ∨
      (s1 = CL_SUCCESS ∧ ∃ s2 k2,
        (s2 ≠ CL_SUCCESS ∧ resolve env rt Host.init =
          .halt (.fatal (oclMessage s2 env.file 44))
            { trace := [.cl (.clGetPlatformIDs 0 true) s1 k1,
                        .cl (.clGetPlatformIDs 0 false) s2 k2],
              out := [.line "Number of OpenCL platforms: 0"] }) ∨
        (s2 = CL_SUCCESS ∧ resolve env rt Host.init =
          .halt (.exit 1)
            { trace := [.cl (.clGetPlatformIDs 0 true) s1 k1,
                        .cl (.clGetPlatformIDs 0 false) s2 k2],
              out := [.line "Number of OpenCL platforms: 0",
                      .line "Platforms not found"] })) := by
  refine ⟨(rt [] (.clGetPlatformIDs 0 true)).status,
    (rt [] (.clGetPlatformIDs 0 true)).handle, ?_⟩
  by_cases h1 : (rt [] (.clGetPlatformIDs 0 true)).status = CL_SUCCESS
  · refine Or.inr ⟨h1,
      (rt [.cl (.clGetPlatformIDs 0 true) (rt [] (.clGetPlatformIDs 0 true)).status
        (rt [] (.clGetPlatformIDs 0 true)).handle] (.clGetPlatformIDs 0 false)).status,
      (rt [.cl (.clGetPlatformIDs 0 true) (rt [] (.clGetPlatformIDs 0 true)).status
        (rt [] (.clGetPlatformIDs 0 true)).handle] (.clGetPlatformIDs 0 false)).handle, ?_⟩
    by_cases h2 : (rt [.cl (.clGetPlatformIDs 0 true) (rt [] (.clGetPlatformIDs 0 true)).status
        (rt [] (.clGetPlatformIDs 0 true)).handle] (.clGetPlatformIDs 0 false)).status
          = CL_SUCCESS
    · refine Or.inr ⟨h2, ?_⟩
      have h3 := h2
      simp only [h1] at h3
      simp only [resolve, hinit, Host.init, clCall_bind_apply, hcount, h1, h3, safe_eq_pure,
        pure_bind_apply, print_bind_apply, exitWith_bind_apply, Bool.not_true,
        Bool.false_eq_true, if_false, List.nil_append, filled_zero, List.isEmpty_nil, if_true,
        bind_assoc_apply]
      rfl
    · refine Or.inl ⟨h2, ?_⟩
      have h3 := h2
      simp only [h1] at h3
      simp only [resolve, hinit, Host.init, clCall_bind_apply, hcount, h1,
        safe_eq_raise _ _ _ h3, safe_eq_pure, pure_bind_apply, print_bind_apply,
        raise_bind_apply, Bool.not_true, Bool.false_eq_true, if_false, List.nil_append]
      rfl
  · refine Or.inl ⟨h1, ?_⟩
    simp only [resolve, hinit, Host.init, clCall_bind_apply, safe_eq_raise _ _ _ h1,
      raise_bind_apply, Bool.not_true, Bool.false_eq_true, if_false, List.nil_append,
      pure_bind_apply]

/-- On a runtime that serves a state whose first platform has a GPU device, device
selection makes four discovery calls and returns the first GPU device of that platform. -/
theorem resolve_gpu (env : Env F) (rt : Runtime F) (p : Platform) (rest : List Platform)
    (g : Nat) (gs : List Nat) (hinit : env.ocl_init = true) (hs : Serves rt (p :: rest))
    (hg : p.gpus = g :: gs) :
    ∃ k1 k2 k3 k4, resolve env rt Host.init = .ok (g, p.gpus)
      { trace := [.cl (.clGetPlatformIDs 0 true) CL_SUCCESS k1,
                  .cl (.clGetPlatformIDs (rest.length + 1) false) CL_SUCCESS k2,
                  .cl (.clGetDeviceIDs p.id .GPU 0 true) CL_SUCCESS k3,
                  .cl (.clGetDeviceIDs p.id .GPU (gs.length + 1) false) CL_SUCCESS k4],
        out := [.line ("Number of OpenCL platforms: " ++ toString ((rest.length + 1 : Nat) : Int))] } := by
  have hne : p.devices .GPU ≠ [] := by simp [Platform.devices, hg]
  have hlen : (p.devices .GPU).length = gs.length + 1 := by simp [Platform.devices, hg]
  have hdev : p.devices .GPU = g :: gs := by simp [Platform.devices, hg]
  obtain ⟨a1s, a1c, -, -⟩ := hs []
  generalize hr1 : rt [] (.clGetPlatformIDs 0 true) = r1 at a1s a1c
  obtain ⟨-, -, a2, -⟩ := hs [.cl (.clGetPlatformIDs 0 true) CL_SUCCESS r1.handle]
  obtain ⟨a2s, a2f⟩ := a2 (by simp)
  simp only [List.length_cons, List.map_cons] at a1c a2s a2f
  generalize hr2 : rt [.cl (.clGetPlatformIDs 0 true) CL_SUCCESS r1.handle]
    (.clGetPlatformIDs (rest.length + 1) false) = r2 at a2s a2f
  obtain ⟨-, -, -, a3⟩ := hs [.cl (.clGetPlatformIDs 0 true) CL_SUCCESS r1.handle,
    .cl (.clGetPlatformIDs (rest.length + 1) false) CL_SUCCESS r2.handle]
  obtain ⟨a3s, a3c, -, -⟩ := (a3 p (List.mem_cons_self _ _) .GPU).2 hne
  rw [hlen] at a3c
  generalize hr3 : rt [.cl (.clGetPlatformIDs 0 true) CL_SUCCESS r1.handle,
    .cl (.clGetPlatformIDs (rest.length + 1) false) CL_SUCCESS r2.handle]
    (.clGetDeviceIDs p.id .GPU 0 true) = r3 at a3s a3c
  obtain ⟨-, -, -, a4⟩ := hs [.cl (.clGetPlatformIDs 0 true) CL_SUCCESS r1.handle,
    .cl (.clGetPlatformIDs (rest.length + 1) false) CL_SUCCESS r2.handle,
    .cl (.clGetDeviceIDs p.id .GPU 0 true) CL_SUCCESS r3.handle]
  obtain ⟨-, -, a4s, a4f⟩ := (a4 p (List.mem_cons_self _ _) .GPU).2 hne
  rw [hlen] at a4s a4f
  rw [hdev] at a4f
  generalize hr4 : rt [.cl (.clGetPlatformIDs 0 true) CL_SUCCESS r1.handle,
    .cl (.clGetPlatformIDs (rest.length + 1) false) CL_SUCCESS r2.handle,
    .cl (.clGetDeviceIDs p.id .GPU 0 true) CL_SUCCESS r3.handle]
    (.clGetDeviceIDs p.id .GPU (gs.length + 1) false) = r4 at a4s a4f
  refine ⟨r1.handle, r2.handle, r3.handle, r4.handle, ?_⟩
  have hnf : CL_SUCCESS ≠ CL_DEVICE_NOT_FOUND := by decide
  simp only [resolve, hinit, Host.init, clCall_bind_apply, hr1, a1s, a1c, Option.getD_some,
    safe_eq_pure, pure_bind_apply, print_bind_apply, Bool.not_true, Bool.false_eq_true,
    if_false, List.nil_append, List.cons_append, hr2, a2s, a2f, List.isEmpty_cons,
    List.headD_cons, hr3, a3s, a3c, hr4, a4s, a4f, hnf, ne_eq, not_false_eq_true, if_true,
    gt_iff_lt, Nat.zero_lt_succ, bind_assoc_apply, hg, to_string]
  rfl

/-- On a runtime that serves a state whose first platform has no GPU device and a CPU
device, device selection makes five discovery calls and returns the first CPU device of that
platform. -/
theorem resolve_cpu (env : Env F) (rt : Runtime F) (p : Platform) (rest : List Platform)
    (c : Nat) (cs : List Nat) (hinit : env.ocl_init = true) (hs : Serves rt (p :: rest))
    (hg : p.gpus = []) (hc : p.cpus = c :: cs) :
    ∃ k1 k2 k3 k4 k5, resolve env rt Host.init = .ok (c, p.cpus)
      { trace := [.cl (.clGetPlatformIDs 0 true) CL_SUCCESS k1,
                  .cl (.clGetPlatformIDs (rest.length + 1) false) CL_SUCCESS k2,
                  .cl (.clGetDeviceIDs p.id .GPU 0 true) CL_DEVICE_NOT_FOUND k3,
                  .cl (.clGetDeviceIDs p.id .CPU 0 true) CL_SUCCESS k4,
                  .cl (.clGetDeviceIDs p.id .CPU (cs.length + 1) false) CL_SUCCESS k5],
        out := [.line ("Number of OpenCL platforms: " ++ toString ((rest.length + 1 : Nat) : Int)),
                .line "GPU devices not found"] } := by
  have hcne : p.devices .CPU ≠ [] := by simp [Platform.devices, hc]
  have hlen : (p.devices .CPU).length = cs.length + 1 := by simp [Platform.devices, hc]
  have hdev : p.devices .CPU = c :: cs := by simp [Platform.devices, hc]
  have hne : p.devices .GPU = [] := by simp [Platform.devices, hg]
  obtain ⟨a1s, a1c, -, -⟩ := hs []
  generalize hr1 : rt [] (.clGetPlatformIDs 0 true) = r1 at a1s a1c
  obtain ⟨-, -, a2, -⟩ := hs [.cl (.clGetPlatformIDs 0 true) CL_SUCCESS r1.handle]
  obtain ⟨a2s, a2f⟩ := a2 (by simp)
  simp only [List.length_cons, List.map_cons] at a1c a2s a2f
  generalize hr2 : rt [.cl (.clGetPlatformIDs 0 true) CL_SUCCESS r1.handle]
    (.clGetPlatformIDs (rest.length + 1) false) = r2 at a2s a2f
  obtain ⟨-, -, -, a3⟩ := hs [.cl (.clGetPlatformIDs 0 true) CL_SUCCESS r1.handle,
    .cl (.clGetPlatformIDs (rest.length + 1) false) CL_SUCCESS r2.handle]
  obtain ⟨a3s, a3c⟩ := (a3 p (List.mem_cons_self _ _) .GPU).1 hne
  generalize hr3 : rt [.cl (.clGetPlatformIDs 0 true) CL_SUCCESS r1.handle,
    .cl (.clGetPlatformIDs (rest.length + 1) false) CL_SUCCESS r2.handle]
    (.clGetDeviceIDs p.id .GPU 0 true) = r3 at a3s a3c
  obtain ⟨-, -, -, a4⟩ := hs [.cl (.clGetPlatformIDs 0 true) CL_SUCCESS r1.handle,
    .cl (.clGetPlatformIDs (rest.length + 1) false) CL_SUCCESS r2.handle,
    .cl (.clGetDeviceIDs p.id .GPU 0 true) CL_DEVICE_NOT_FOUND r3.handle]
  obtain ⟨a4s, a4c, -, -⟩ := (a4 p (List.mem_cons_self _ _) .CPU).2 hcne
  rw [hlen] at a4c
  generalize hr4 : rt [.cl (.clGetPlatformIDs 0 true) CL_SUCCESS r1.handle,
    .cl (.clGetPlatformIDs (rest.length + 1) false) CL_SUCCESS r2.handle,
    .cl (.clGetDeviceIDs p.id .GPU 0 true) CL_DEVICE_NOT_FOUND r3.handle]
    (.clGetDeviceIDs p.id .CPU 0 true) = r4 at a4s a4c
  obtain ⟨-, -, -, a5⟩ := hs [.cl (.clGetPlatformIDs 0 true) CL_SUCCESS r1.handle,
    .cl (.clGetPlatformIDs (rest.length + 1) false) CL_SUCCESS r2.handle,
    .cl (.clGetDeviceIDs p.id .GPU 0 true) CL_DEVICE_NOT_FOUND r3.handle,
    .cl (.clGetDeviceIDs p.id .CPU 0 true) CL_SUCCESS r4.handle]
  obtain ⟨-, -, a5s, a5f⟩ := (a5 p (List.mem_cons_self _ _) .CPU).2 hcne
  rw [hlen] at a5s a5f
  rw [hdev] at a5f
  generalize hr5 : rt [.cl (.clGetPlatformIDs 0 true) CL_SUCCESS r1.handle,
    .cl (.clGetPlatformIDs (rest.length + 1) false) CL_SUCCESS r2.handle,
    .cl (.clGetDeviceIDs p.id .GPU 0 true) CL_DEVICE_NOT_FOUND r3.handle,
    .cl (.clGetDeviceIDs p.id .CPU 0 true) CL_SUCCESS r4.handle]
    (.clGetDeviceIDs p.id .CPU (cs.length + 1) false) = r5 at a5s a5f
  refine ⟨r1.handle, r2.handle, r3.handle, r4.handle, r5.handle, ?_⟩
  simp only [resolve, hinit, Host.init, clCall_bind_apply, hr1, a1s, a1c, Option.getD_some,
    safe_eq_pure, pure_bind_apply, print_bind_apply, Bool.not_true, Bool.false_eq_true,
    if_false, List.nil_append, List.cons_append, hr2, a2s, a2f, List.isEmpty_cons,
    List.headD_cons, hr3, a3s, a3c, hr4, a4s, a4c, hr5, a5s, a5f, ne_eq, not_true_eq_false,
    if_true, gt_iff_lt, Nat.zero_lt_succ, Nat.lt_irrefl, bind_assoc_apply, hc, to_string]
  rfl

/-- On a runtime that serves a state whose first platform has neither a GPU nor a CPU
device, the status `CL_DEVICE_NOT_FOUND` of the CPU count query is passed to `reportError`
at main.cpp:64: device selection ends with the fatal status error, before the emptiness test
at main.cpp:70. -/
theorem resolve_no_device (env : Env F) (rt : Runtime F) (p : Platform)
    (rest : List Platform) (hinit : env.ocl_init = true) (hs : Serves rt (p :: rest))
    (hg : p.gpus = []) (hc : p.cpus = []) :
    ∃ k1 k2 k3 k4, resolve env rt Host.init =
      .halt (.fatal (oclMessage CL_DEVICE_NOT_FOUND env.file 64))
      { trace := [.cl (.clGetPlatformIDs 0 true) CL_SUCCESS k1,
                  .cl (.clGetPlatformIDs (rest.length + 1) false) CL_SUCCESS k2,
                  .cl (.clGetDeviceIDs p.id .GPU 0 true) CL_DEVICE_NOT_FOUND k3,
                  .cl (.clGetDeviceIDs p.id .CPU 0 true) CL_DEVICE_NOT_FOUND k4],
        out := [.line ("Number of OpenCL platforms: " ++ toString ((rest.length + 1 : Nat) : Int)),
                .line "GPU devices not found"] } := by
  have hce : p.devices .CPU = [] := by simp [Platform.devices, hc]
  have hne : p.devices .GPU = [] := by simp [Platform.devices, hg]
  obtain ⟨a1s, a1c, -, -⟩ := hs []
  generalize hr1 : rt [] (.clGetPlatformIDs 0 true) = r1 at a1s a1c
  obtain ⟨-, -, a2, -⟩ := hs [.cl (.clGetPlatformIDs 0 true) CL_SUCCESS r1.handle]
  obtain ⟨a2s, a2f⟩ := a2 (by simp)
  simp only [List.length_cons, List.map_cons] at a1c a2s a2f
  generalize hr2 : rt [.cl (.clGetPlatformIDs 0 true) CL_SUCCESS r1.handle]
    (.clGetPlatformIDs (rest.length + 1) false) = r2 at a2s a2f
  obtain ⟨-, -, -, a3⟩ := hs [.cl (.clGetPlatformIDs 0 true) CL_SUCCESS r1.handle,
    .cl (.clGetPlatformIDs (rest.length + 1) false) CL_SUCCESS r2.handle]
  obtain ⟨a3s, a3c⟩ := (a3 p (List.mem_cons_self _ _) .GPU).1 hne
  generalize hr3 : rt [.cl (.clGetPlatformIDs 0 true) CL_SUCCESS r1.handle,
    .cl (.clGetPlatformIDs (rest.length + 1) false) CL_SUCCESS r2.handle]
    (.clGetDeviceIDs p.id .GPU 0 true) = r3 at a3s a3c
  obtain ⟨-, -, -, a4⟩ := hs [.cl (.clGetPlatformIDs 0 true) CL_SUCCESS r1.handle,
    .cl (.clGetPlatformIDs (rest.length + 1) false) CL_SUCCESS r2.handle,
    .cl (.clGetDeviceIDs p.id .GPU 0 true) CL_DEVICE_NOT_FOUND r3.handle]
  obtain ⟨a4s, -⟩ := (a4 p (List.mem_cons_self _ _) .CPU).1 hce
  generalize hr4 : rt [.cl (.clGetPlatformIDs 0 true) CL_SUCCESS r1.handle,
    .cl (.clGetPlatformIDs (rest.length + 1) false) CL_SUCCESS r2.handle,
    .cl (.clGetDeviceIDs p.id .GPU 0 true) CL_DEVICE_NOT_FOUND r3.handle]
    (.clGetDeviceIDs p.id .CPU 0 true) = r4 at a4s
  refine ⟨r1.handle, r2.handle, r3.handle, r4.handle, ?_⟩
  have hnf : CL_DEVICE_NOT_FOUND ≠ CL_SUCCESS := by decide
  simp only [resolve, hinit, Host.init, clCall_bind_apply, hr1, a1s, a1c, Option.getD_some,
    safe_eq_pure, pure_bind_apply, print_bind_apply, Bool.not_true, Bool.false_eq_true,
    if_false, List.nil_append, List.cons_append, hr2, a2s, a2f, List.isEmpty_cons,
    List.headD_cons, hr3, a3s, a3c, hr4, a4s, ne_eq, not_true_eq_false,
    if_true, gt_iff_lt, Nat.lt_irrefl, bind_assoc_apply, to_string,
    safe_eq_raise _ _ _ hnf, raise_bind_apply]

end Discovery

section DiscoveryClaims

variable {F : Type}

/-- With any kernel source, the build section reads the file and calls only the program
interface. -/
theorem build_emits_events (env : Env F) (rt : Runtime F) (res : Resources F) :
    Emits (fun e => e.group = .file ∨ e.group = .program) (fun _ => True) (fun _ => True)
      (build env rt res) := by
  unfold build
  dsimp only
  repeat' first
    | refine Emits.bind ?_ (fun _ => ?_)
    | apply Emits.pure
    | apply Emits.clCall
    | apply Emits.safe
    | apply Emits.raise
    | apply Emits.print
    | apply Emits.record
    | split
  all_goals first
    | trivial
    | (intro _ _; exact Or.inr rfl)
    | (intro _ _; trivial)

/-- The body of `main` is device selection followed by the other sections, run with the
selected device. -/
theorem run_eq_proceed (env : Env F) (rt : Runtime F) (n : Nat) :
    run env rt n = resolve env rt >>= proceed env rt n := rfl

/-- After device selection, `run` makes no discovery call. -/
theorem after_resolve_emits (env : Env F) (rt : Runtime F) (n : Nat) (d : Nat × List Nat) :
    Emits (fun e => e.group ≠ .discovery) (fun _ => True) (fun _ => True)
      (allocate env rt n d.1 d.2 >>= fun res => build env rt res >>= fun program =>
        dispatch env rt n res program >>= fun _ => conclude env rt n res) := by
  refine Emits.bind ?_ (fun res => Emits.bind ?_ (fun program => Emits.bind ?_ (fun _ => ?_)))
  · refine (allocate_emits env rt n d.1 d.2).mono ?_ (fun _ _ => trivial) (fun _ _ => trivial)
    intro e he
    rw [he]
    decide
  · refine (build_emits_events env rt res).mono ?_ (fun _ _ => trivial) (fun _ _ => trivial)
    intro e he
    rcases he with he | he <;> rw [he] <;> decide
  · refine (dispatch_emits env rt n res program).mono ?_ (fun _ _ => trivial)
      (fun _ _ => trivial)
    intro e he
    rcases he with he | he <;> rw [he] <;> decide
  · refine (conclude_emits env rt n res).mono ?_ (fun _ _ => trivial) (fun _ _ => trivial)
    intro e he
    rcases he with he | he <;> rw [he] <;> decide

/-- The discovery calls of a run are those of device selection. -/
theorem run_discovery (env : Env F) (rt : Runtime F) (n : Nat) (h : Host) (e : Event)
    (he : e ∈ (run env rt n h).host.trace) (hd : e.group = .discovery) :
    e ∈ (resolve env rt h).host.trace := by
  cases hr : resolve env rt h with
  | halt o h1 =>
    rw [run_of_resolve_halt env rt n hr] at he
    exact he
  | ok d h1 =>
    have hrun : run env rt n h = (allocate env rt n d.1 d.2 >>= fun res =>
        build env rt res >>= fun program =>
        dispatch env rt n res program >>= fun _ => conclude env rt n res) h1 := by
      unfold run
      rw [bind_ok hr]
      show M.bind _ _ h1 = M.bind _ (fun res => M.bind _ (fun program => M.bind _ _)) h1
      simp only [M.bind]
      rfl
    obtain ⟨⟨l, hl, hP⟩, -, -⟩ := (after_resolve_emits env rt n d).holds h1
    rw [hrun, hl] at he
    rcases List.mem_append.1 he with he | he
    · exact he
    · exact absurd hd (hP e he)

/-- C3: on a runtime that serves a state with at least one platform, the device selected by
`main` (the value of `device` at main.cpp:75, with which the rest of `main` runs) is the
first GPU device of the first platform when that platform has a GPU device, and its first
CPU device when it has no GPU device and a CPU device.  Every device selected is a device of
the first platform, and every device query of the run is made on the first platform. -/
theorem gpu_preferred_fallback (env : Env F) (rt : Runtime F) (n : Nat) (p : Platform)
    (rest : List Platform) (hinit : env.ocl_init = true) (hs : Serves rt (p :: rest)) :
    (∀ g gs, p.gpus = g :: gs →
        ∃ h, resolve env rt Host.init = .ok (g, p.gpus) h ∧
          run env rt n Host.init = proceed env rt n (g, p.gpus) h) ∧
      (∀ c cs, p.gpus = [] → p.cpus = c :: cs →
        ∃ h, resolve env rt Host.init = .ok (c, p.cpus) h ∧
          run env rt n Host.init = proceed env rt n (c, p.cpus) h) ∧
      (∀ d ds h, resolve env rt Host.init = .ok (d, ds) h → d ∈ p.gpus ++ p.cpus) ∧
      (∀ q kind k flag s hd, Event.cl (.clGetDeviceIDs q kind k flag) s hd
        ∈ (run env rt n Host.init).host.trace → q = p.id) := by
  have hgpu : ∀ g gs, p.gpus = g :: gs →
      ∃ h, resolve env rt Host.init = .ok (g, p.gpus) h ∧
        ∀ q kind k flag s hd, Event.cl (.clGetDeviceIDs q kind k flag) s hd ∈ h.trace →
          q = p.id := by
    intro g gs hg
    obtain ⟨k1, k2, k3, k4, hr⟩ := resolve_gpu env rt p rest g gs hinit hs hg
    refine ⟨_, hr, ?_⟩
    intro q kind k flag s hd hmem
    simp only [List.mem_cons, Event.cl.injEq, Call.clGetDeviceIDs.injEq, List.mem_singleton,
      false_and, false_or, reduceCtorEq, List.not_mem_nil, or_false] at hmem
    rcases hmem with hmem | hmem <;> exact hmem.1.1
  have hcpu : ∀ c cs, p.gpus = [] → p.cpus = c :: cs →
      ∃ h, resolve env rt Host.init = .ok (c, p.cpus) h ∧
        ∀ q kind k flag s hd, Event.cl (.clGetDeviceIDs q kind k flag) s hd ∈ h.trace →
          q = p.id := by
    intro c cs hg hc
    obtain ⟨k1, k2, k3, k4, k5, hr⟩ := resolve_cpu env rt p rest c cs hinit hs hg hc
    refine ⟨_, hr, ?_⟩
    intro q kind k flag s hd hmem
    simp only [List.mem_cons, Event.cl.injEq, Call.clGetDeviceIDs.injEq, List.mem_singleton,
      false_and, false_or, reduceCtorEq, List.not_mem_nil, or_false] at hmem
    rcases hmem with hmem | hmem | hmem <;> exact hmem.1.1
  refine ⟨fun g gs hg => ?_, fun c cs hg hc => ?_, ?_, ?_⟩
  · obtain ⟨h, hr, -⟩ := hgpu g gs hg
    exact ⟨h, hr, by rw [run_eq_proceed, bind_ok hr]⟩
  · obtain ⟨h, hr, -⟩ := hcpu c cs hg hc
    exact ⟨h, hr, by rw [run_eq_proceed, bind_ok hr]⟩
  · intro d ds h hr
    cases hg : p.gpus with
    | cons g gs =>
      obtain ⟨h2, hr2, -⟩ := hgpu g gs hg
      rw [hr2] at hr
      cases hr
      simp [hg]
    | nil =>
      cases hc : p.cpus with
      | cons c cs =>
        obtain ⟨h2, hr2, -⟩ := hcpu c cs hg hc
        rw [hr2] at hr
        cases hr
        simp [hc]
      | nil =>
        obtain ⟨k1, k2, k3, k4, hr2⟩ := resolve_no_device env rt p rest hinit hs hg hc
        rw [hr2] at hr
        cases hr
  · intro q kind k flag s hd hmem
    have hmem2 := run_discovery env rt n Host.init _ hmem rfl
    cases hg : p.gpus with
    | cons g gs =>
      obtain ⟨h2, hr2, hq⟩ := hgpu g gs hg
      rw [hr2] at hmem2
      exact hq q kind k flag s hd hmem2
    | nil =>
      cases hc : p.cpus with
      | cons c cs =>
        obtain ⟨h2, hr2, hq⟩ := hcpu c cs hg hc
        rw [hr2] at hmem2
        exact hq q kind k flag s hd hmem2
      | nil =>
        obtain ⟨k1, k2, k3, k4, hr2⟩ := resolve_no_device env rt p rest hinit hs hg hc
        rw [hr2] at hmem2
        simp only [Res.host, List.mem_cons, Event.cl.injEq, Call.clGetDeviceIDs.injEq,
          List.mem_singleton, false_and, false_or, reduceCtorEq, List.not_mem_nil,
          or_false] at hmem2
        rcases hmem2 with hmem2 | hmem2 <;> exact hmem2.1.1

end DiscoveryClaims

section DiscoveryInstances

/-- The sample runtime serves its platform list, for the lists used below. -/
theorem simulate_serves_cpuOnly :
    Serves (simulate cpuOnlySim)
      [{ id := 7, gpus := [], cpus := [71, 72] }, { id := 8, gpus := [80], cpus := [81] }] := by
  intro hist
  refine ⟨rfl, rfl, fun _ => ⟨rfl, rfl⟩, ?_⟩
  intro p hp kind
  simp only [List.mem_cons, List.mem_singleton, List.not_mem_nil, or_false] at hp
  rcases hp with rfl | rfl <;> cases kind <;>
    exact ⟨fun h => by first | exact ⟨rfl, rfl⟩ | exact absurd h (by decide),
      fun h => by first | exact ⟨rfl, rfl, rfl, rfl⟩ | exact absurd rfl h⟩

/-- The instance of C3 on a state with two platforms, the first with CPU devices only: the
first CPU device of the first platform is selected, not the GPU device of the second. -/
theorem gpu_preferred_fallback_witness :
    ∃ h, resolve (sampleEnv "kernel") (simulate cpuOnlySim) Host.init = .ok (71, [71, 72]) h ∧
      run (sampleEnv "kernel") (simulate cpuOnlySim) 4 Host.init
        = proceed (sampleEnv "kernel") (simulate cpuOnlySim) 4 (71, [71, 72]) h :=
  (gpu_preferred_fallback (sampleEnv "kernel") (simulate cpuOnlySim) 4
    { id := 7, gpus := [], cpus := [71, 72] } [{ id := 8, gpus := [80], cpus := [81] }]
    rfl simulate_serves_cpuOnly).2.1 71 [72] rfl rfl

/-- C4 fails on the code: on a runtime with one platform that has neither GPU nor CPU
devices, and that answers a count query for an empty kind with `CL_DEVICE_NOT_FOUND` and
count 0, `main` does not reach the emptiness test at main.cpp:70.  The CPU count query at
main.cpp:64 is passed to `reportError` unguarded, so the run ends with the fatal status error
for code -1, without printing "GPU and CPU devices not found" and without exit code 1. -/
theorem no_device_is_fatal :
    main (sampleEnv "kernel") (simulate noDeviceSim) =
      .halt (.fatal "OpenCL error code -1 encountered at src/main.cpp:64")
        { trace := [.cl (.clGetPlatformIDs 0 true) CL_SUCCESS 1,
                    .cl (.clGetPlatformIDs 1 false) CL_SUCCESS 2,
                    .cl (.clGetDeviceIDs 7 .GPU 0 true) CL_DEVICE_NOT_FOUND 3,
                    .cl (.clGetDeviceIDs 7 .CPU 0 true) CL_DEVICE_NOT_FOUND 4],
          out := [.line "Number of OpenCL platforms: 1", .line "GPU devices not found"] } := by
  decide

end DiscoveryInstances

section NoPlatform

variable {F : Type}

/-- When the driver loads and the platform count query reports 0, a run makes no runtime
call other than `clGetPlatformIDs` with zero entries (no device enumeration, nothing later),
whatever the statuses; the exit with code 1 at main.cpp:46-49 is reached only on a runtime
whose count query and whose query with zero entries both return `CL_SUCCESS`. -/
theorem no_platform_exit (env : Env F) (rt : Runtime F) (n : Nat)
    (hinit : env.ocl_init = true)
    (hcount : (rt [] (.clGetPlatformIDs 0 true)).count.getD 0 = 0) :
    (∀ e ∈ (run env rt n Host.init).host.trace,
        ∃ flag s k, e = .cl (.clGetPlatformIDs 0 flag) s k) ∧
      ((∀ c s k, Event.cl c s k ∈ (run env rt n Host.init).host.trace → s = CL_SUCCESS) →
        ∃ k1 k2, run env rt n Host.init = .halt (.exit 1)
          { trace := [.cl (.clGetPlatformIDs 0 true) CL_SUCCESS k1,
                      .cl (.clGetPlatformIDs 0 false) CL_SUCCESS k2],
            out := [.line "Number of OpenCL platforms: 0", .line "Platforms not found"] }) := by
  obtain ⟨s1, k1, hcase⟩ := resolve_zero_count env rt hinit hcount
  rcases hcase with ⟨hs1, hr⟩ | ⟨hs1, s2, k2, ⟨hs2, hr⟩ | ⟨hs2, hr⟩⟩
  · rw [run_of_resolve_halt env rt n hr]
    refine ⟨?_, fun hall => ?_⟩
    · intro e he
      simp only [Res.host, List.mem_singleton] at he
      exact ⟨true, s1, k1, he⟩
    · exact absurd (hall (.clGetPlatformIDs 0 true) s1 k1 (by simp [Res.host])) hs1
  · rw [run_of_resolve_halt env rt n hr]
    refine ⟨?_, fun hall => ?_⟩
    · intro e he
      simp only [Res.host, List.mem_cons, List.mem_singleton, List.not_mem_nil, or_false] at he
      rcases he with he | he
      · exact ⟨true, s1, k1, he⟩
      · exact ⟨false, s2, k2, he⟩
    · exact absurd (hall (.clGetPlatformIDs 0 false) s2 k2 (by simp [Res.host])) hs2
  · rw [run_of_resolve_halt env rt n hr]
    refine ⟨?_, fun _ => ⟨k1, k2, ?_⟩⟩
    · intro e he
      simp only [Res.host, List.mem_cons, List.mem_singleton, List.not_mem_nil, or_false] at he
      rcases he with he | he
      · exact ⟨true, s1, k1, he⟩
      · exact ⟨false, s2, k2, he⟩
    · rw [hs1, hs2]

/-- C5 fails on the code: on a runtime without platforms, whose count query succeeds and
reports 0 and whose query with zero entries answers `CL_INVALID_VALUE` (-30), `main` makes
that query at main.cpp:44 under `OCL_SAFE_CALL`, before the emptiness test, and ends with the
fatal status error; it prints no "Platforms not found" and does not return 1.  The device
paths skip the handle query when the count is 0 (main.cpp:59 and main.cpp:66); the platform
path has no such guard. -/
theorem no_platform_can_be_fatal :
    (simulate noPlatformSim [] (.clGetPlatformIDs 0 true)).status = CL_SUCCESS ∧
      (simulate noPlatformSim [] (.clGetPlatformIDs 0 true)).count = some 0 ∧
      main (sampleEnv "kernel") (simulate noPlatformSim) =
        .halt (.fatal "OpenCL error code -30 encountered at src/main.cpp:44")
          { trace := [.cl (.clGetPlatformIDs 0 true) CL_SUCCESS 1,
                      .cl (.clGetPlatformIDs 0 false) (-30) 2],
            out := [.line "Number of OpenCL platforms: 0"] } := by
  decide

end NoPlatform

section Build

variable {F : Type}

end Build

section Source

variable {F : Type}

theorem run_of_prepare_halt (env : Env F) (rt : Runtime F) (n : Nat) {h h1 : Host}
    {o : Outcome} (e : prepare env rt n h = .halt o h1) : run env rt n h = .halt o h1 := by
  rw [run_eq]
  exact bind_halt e

theorem run_of_prepare_ok (env : Env F) (rt : Runtime F) (n : Nat) {h h1 : Host}
    {res : Resources F} (e : prepare env rt n h = .ok res h1) :
    run env rt n h = (build env rt res >>= fun program =>
      dispatch env rt n res program >>= fun _ => conclude env rt n res) h1 := by
  rw [run_eq]
  exact bind_ok e

/-- The state in which the kernel source is loaded holds only discovery and memory calls and
no line "Log:". -/
theorem prepare_state (env : Env F) (rt : Runtime F) (n : Nat) :
    (∀ e ∈ (prepare env rt n Host.init).host.trace,
        e.group = .discovery ∨ e.group = .memory) ∧
      (∀ x ∈ (prepare env rt n Host.init).host.out, x ≠ .line "Log:") := by
  obtain ⟨⟨l, hl, hP⟩, ⟨o, ho, hQ⟩, -⟩ := (prepare_emits env rt n).holds Host.init
  have ht : Host.init.trace = [] := rfl
  have hu : Host.init.out = [] := rfl
  rw [ht, List.nil_append] at hl
  rw [hu, List.nil_append] at ho
  rw [hl, ho]
  exact ⟨hP, hQ⟩

/-- With an empty kernel source the build section reads the file and throws. -/
theorem build_empty (env : Env F) (rt : Runtime F) (res : Resources F) (h : Host)
    (hsrc : env.source = "") :
    build env rt res h = .halt (.fatal emptySourceMessage)
      { trace := h.trace ++ [.readFile "src/cl/aplusb.cl"], out := h.out } := by
  have he : env.source.isEmpty = true := (String.isEmpty_iff _).2 hsrc
  simp only [build, he, record_bind_apply, raise_bind_apply, if_true, bind_assoc_apply]
  rfl

/-- With a non-empty kernel source, no section of a run throws the empty-source error. -/
theorem run_emits (env : Env F) (rt : Runtime F) (n : Nat) (hsrc : env.source ≠ "") :
    Emits (fun _ => True) (fun _ => True) (fun oc => oc ≠ .fatal emptySourceMessage)
      (run env rt n) := by
  rw [run_eq]
  refine Emits.bind ?_ (fun res => Emits.bind ?_ (fun program => Emits.bind ?_ (fun _ => ?_)))
  · exact (prepare_emits env rt n).mono (fun _ _ => trivial) (fun _ _ => trivial)
      (fun _ h => h.1)
  · exact (build_emits env rt res hsrc).mono (fun _ _ => trivial) (fun _ _ => trivial)
      (fun _ h => h.1)
  · exact (dispatch_emits env rt n res program).mono (fun _ _ => trivial)
      (fun _ _ => trivial) (fun _ h => h.1)
  · exact (conclude_emits env rt n res).mono (fun _ _ => trivial) (fun _ _ => trivial)
      (fun _ h => h)

/-- C8: a run that reaches the loading of the kernel source with an empty source text ends
with the empty-source error of main.cpp:116 and makes no call of the program interface
(neither `clCreateProgramWithSource` nor `clBuildProgram`); a run with a non-empty source
text never ends with the empty-source error. -/
theorem empty_source_rejected (env : Env F) (rt : Runtime F) (n : Nat) :
    (env.source = "" →
        Event.readFile "src/cl/aplusb.cl" ∈ (run env rt n Host.init).host.trace →
        (run env rt n Host.init).outcome = some (.fatal
          "Empty source file! May be you forgot to configure working directory properly?") ∧
        ∀ e ∈ (run env rt n Host.init).host.trace, e.group ≠ .program) ∧
      (env.source ≠ "" →
        (run env rt n Host.init).outcome ≠ some (.fatal
          "Empty source file! May be you forgot to configure working directory properly?")) := by
  refine ⟨fun hsrc hread => ?_, fun hsrc hout => ?_⟩
  · obtain ⟨hP, -⟩ := prepare_state env rt n
    cases hp : prepare env rt n Host.init with
    | halt o h1 =>
      rw [run_of_prepare_halt env rt n hp] at hread
      rw [hp] at hP
      have := hP _ hread
      simp [Event.group] at this
    | ok res h1 =>
      rw [hp] at hP
      simp only [Res.host] at hP
      rw [run_of_prepare_ok env rt n hp, bind_halt (build_empty env rt res h1 hsrc)]
      refine ⟨rfl, ?_⟩
      intro e he
      simp only [Res.host, List.mem_append, List.mem_singleton] at he
      rcases he with he | he
      · rcases hP e he with hg | hg <;> rw [hg] <;> decide
      · rw [he]
        decide
  · exact ((run_emits env rt n hsrc).holds Host.init).2.2 _ hout rfl

/-- The instances of C8 on the sample runtime: with the empty source the run reads the file
and ends with the empty-source error after twelve discovery and memory calls; with the source
"kernel" it does not end with that error. -/
theorem empty_source_rejected_witness :
    ((run (sampleEnv "") (simulate sampleSim) 4 Host.init).outcome = some (.fatal
          "Empty source file! May be you forgot to configure working directory properly?") ∧
        ∀ e ∈ (run (sampleEnv "") (simulate sampleSim) 4 Host.init).host.trace,
          e.group ≠ .program) ∧
      (run (sampleEnv "kernel") (simulate sampleSim) 4 Host.init).outcome ≠ some (.fatal
          "Empty source file! May be you forgot to configure working directory properly?") :=
  ⟨(empty_source_rejected (sampleEnv "") (simulate sampleSim) 4).1 rfl (by decide),
    (empty_source_rejected (sampleEnv "kernel") (simulate sampleSim) 4).2 (by decide)⟩

end Source

section BuildFailure

variable {F : Type}

end BuildFailure

section Dispatch

variable {F : Type}

/-- A dispatch loop that falls through appended, per iteration, a successful submission with
global size `g` and no local size, a successful wait on the event of that submission, and a
lap of the kernel timer; it printed nothing. -/
theorem dispatchLoop_ok (env : Env F) (rt : Runtime F) (res : Resources F) (kernel g : Nat)
    (k : Nat) (h h2 : Host) (hok : dispatchLoop env rt res kernel g k h = .ok () h2) :
    ∃ evs : List (Nat × Nat), evs.length = k ∧
      h2.trace = h.trace ++ evs.flatMap (lapEvents res.commandQueue kernel g) ∧
      h2.out = h.out := by
  induction k generalizing h with
  | zero =>
    refine ⟨[], rfl, ?_⟩
    simp only [dispatchLoop, pure] at hok
    cases hok
    simp
  | succ k ih =>
    generalize hr1 : rt h.trace
      (.clEnqueueNDRangeKernel res.commandQueue kernel 1 none g none) = r1
    by_cases hs1 : r1.status = CL_SUCCESS
    swap
    · simp only [dispatchLoop, clCall_bind_apply, hr1, safe_eq_raise _ _ _ hs1,
        raise_bind_apply] at hok
      cases hok
    generalize hr2 : rt (h.trace ++
      [.cl (.clEnqueueNDRangeKernel res.commandQueue kernel 1 none g none) CL_SUCCESS
        r1.handle]) (.clWaitForEvents 1 r1.handle) = r2
    by_cases hs2 : r2.status = CL_SUCCESS
    swap
    · simp only [dispatchLoop, clCall_bind_apply, hr1, hs1, safe_eq_pure, pure_bind_apply, hr2,
        safe_eq_raise _ _ _ hs2, raise_bind_apply] at hok
      cases hok
    simp only [dispatchLoop, clCall_bind_apply, hr1, hs1, safe_eq_pure, pure_bind_apply, hr2,
      hs2, record_bind_apply] at hok
    obtain ⟨evs, hlen, htr, hout⟩ := ih _ hok
    refine ⟨(r1.handle, r2.handle) :: evs, by simp [hlen], ?_, hout⟩
    rw [htr]
    simp [lapEvents, List.append_assoc]

/-- A dispatch section that falls through created the kernel, bound its four arguments and
ran the dispatch loop 20 times with the global size `gw_size n`. -/
theorem dispatch_ok (env : Env F) (rt : Runtime F) (n : Nat) (res : Resources F)
    (program : Nat) (h h2 : Host) (hok : dispatch env rt n res program h = .ok () h2) :
    ∃ (kernel : Nat) (pre : List Event) (evs : List (Nat × Nat)), evs.length = 20 ∧
      (∀ e ∈ pre, e.isDispatch = false) ∧
      h2.trace = h.trace ++ pre
        ++ evs.flatMap (lapEvents res.commandQueue kernel (gw_size n)) := by
  generalize hr0 : rt h.trace (.clCreateKernel program "aplusb") = r0 at hok
  by_cases hs0 : r0.status = CL_SUCCESS
  swap
  · simp only [dispatch, clCall_bind_apply, hr0, safe_eq_raise _ _ _ hs0, raise_bind_apply]
      at hok
    cases hok
  simp only [dispatch, clCall_bind_apply, hr0, hs0, safe_eq_pure, pure_bind_apply] at hok
  generalize hr1 : rt _ (.clSetKernelArg r0.handle 0 8 (.mem res.aBuf)) = r1 at hok
  by_cases hs1 : r1.status = CL_SUCCESS
  swap
  · simp only [safe_eq_raise _ _ _ hs1, raise_bind_apply] at hok
    cases hok
  simp only [hs1, safe_eq_pure, pure_bind_apply, clCall_bind_apply] at hok
  generalize hr2 : rt _ (.clSetKernelArg r0.handle 1 8 (.mem res.bBuf)) = r2 at hok
  by_cases hs2 : r2.status = CL_SUCCESS
  swap
  · simp only [safe_eq_raise _ _ _ hs2, raise_bind_apply] at hok
    cases hok
  simp only [hs2, safe_eq_pure, pure_bind_apply, clCall_bind_apply] at hok
  generalize hr3 : rt _ (.clSetKernelArg r0.handle 2 8 (.mem res.cBuf)) = r3 at hok
  by_cases hs3 : r3.status = CL_SUCCESS
  swap
  · simp only [safe_eq_raise _ _ _ hs3, raise_bind_apply] at hok
    cases hok
  simp only [hs3, safe_eq_pure, pure_bind_apply, clCall_bind_apply] at hok
  generalize hr4 : rt _ (.clSetKernelArg r0.handle 3 4 (.uint n)) = r4 at hok
  by_cases hs4 : r4.status = CL_SUCCESS
  swap
  · simp only [safe_eq_raise _ _ _ hs4, raise_bind_apply] at hok
    cases hok
  simp only [hs4, safe_eq_pure, pure_bind_apply, clCall_bind_apply] at hok
  generalize hS : Host.mk _ h.out = S at hok
  cases hloop : dispatchLoop env rt res r0.handle (gw_size n) 20 S with
  | halt o h3 =>
    rw [bind_halt hloop] at hok
    cases hok
  | ok u h3 =>
    rw [bind_ok hloop] at hok
    simp only [print_bind_apply, print, Res.ok.injEq, true_and] at hok
    obtain ⟨evs, hlen, htr, -⟩ := dispatchLoop_ok env rt res r0.handle (gw_size n) 20 S h3 hloop
    refine ⟨r0.handle,
      [.cl (.clCreateKernel program "aplusb") CL_SUCCESS r0.handle,
       .cl (.clSetKernelArg r0.handle 0 8 (.mem res.aBuf)) CL_SUCCESS r1.handle,
       .cl (.clSetKernelArg r0.handle 1 8 (.mem res.bBuf)) CL_SUCCESS r2.handle,
       .cl (.clSetKernelArg r0.handle 2 8 (.mem res.cBuf)) CL_SUCCESS r3.handle,
       .cl (.clSetKernelArg r0.handle 3 4 (.uint n)) CL_SUCCESS r4.handle], evs, hlen, ?_, ?_⟩
    · intro e he
      simp only [List.mem_cons, List.mem_singleton, List.not_mem_nil, or_false] at he
      rcases he with he | he | he | he | he <;> rw [he] <;> rfl
    · rw [← hok]
      simp only [htr, ← hS, List.append_assoc, List.cons_append, List.nil_append]

end Dispatch

section DispatchClaims

variable {F : Type}

/-- The build section never returns from `main` with code 0. -/
theorem build_emits_exit (env : Env F) (rt : Runtime F) (res : Resources F) :
    Emits (fun e => e.group = .file ∨ e.group = .program) (fun _ => True)
      (fun oc => oc ≠ .exit 0) (build env rt res) := by
  unfold build
  dsimp only
  repeat' first
    | refine Emits.bind ?_ (fun _ => ?_)
    | apply Emits.pure
    | apply Emits.clCall
    | apply Emits.safe
    | apply Emits.raise
    | apply Emits.print
    | apply Emits.record
    | split
  all_goals first
    | trivial
    | (intro _ _; exact Or.inr rfl)
    | (intro _ _ h; cases h)

theorem isDispatch_of_group (e : Event) (h : e.group ≠ .kernel) : e.isDispatch = false := by
  cases e with
  | cl c s k => cases c <;> first | rfl | exact absurd rfl h
  | nextLap t => rfl
  | readFile p => rfl

theorem localSizes_of_not_dispatch (e : Event) (h : e.isDispatch = false) :
    e.localSizes = [] := by
  cases e with
  | cl c s k => cases c <;> first | rfl | cases h
  | nextLap t => rfl
  | readFile p => rfl

theorem flatMap_localSizes_nil (l : List Event) (h : ∀ e ∈ l, e.isDispatch = false) :
    l.flatMap Event.localSizes = [] := by
  induction l with
  | nil => rfl
  | cons a l ih =>
    rw [List.flatMap_cons, localSizes_of_not_dispatch a (h a (List.mem_cons_self _ _)),
      ih (fun e he => h e (List.mem_cons_of_mem _ he))]
    rfl

theorem flatMap_localSizes_laps (queue kernel g : Nat) (evs : List (Nat × Nat)) :
    (evs.flatMap (lapEvents queue kernel g)).flatMap Event.localSizes
      = List.replicate evs.length none := by
  induction evs with
  | nil => rfl
  | cons a evs ih =>
    rw [List.flatMap_cons, List.flatMap_append, ih]
    rfl

/-- C10, as the code has it: on every successful run the trace is some calls that are not
kernel submissions, then 20 times the three events of `lapEvents` (a successful submission
of the kernel with work dimension 1, global size `gw_size n` and `nullptr` as local size;
a successful wait on the event of that submission; a lap of the kernel timer), then again
calls that are not kernel submissions.  So exactly 20 submissions are made, and each passes
no local size. -/
theorem dispatches_as_submitted (env : Env F) (rt : Runtime F) (n : Nat)
    (hok : (run env rt n Host.init).outcome = some (.exit 0)) :
    (∃ (pre post : List Event) (queue kernel : Nat) (evs : List (Nat × Nat)),
        (run env rt n Host.init).host.trace
          = pre ++ evs.flatMap (lapEvents queue kernel (gw_size n)) ++ post ∧
        evs.length = 20 ∧ (∀ e ∈ pre, e.isDispatch = false) ∧
        (∀ e ∈ post, e.isDispatch = false)) ∧
      (run env rt n Host.init).host.trace.flatMap Event.localSizes
        = List.replicate 20 none := by
  have key : ∃ (pre post : List Event) (queue kernel : Nat) (evs : List (Nat × Nat)),
      (run env rt n Host.init).host.trace
        = pre ++ evs.flatMap (lapEvents queue kernel (gw_size n)) ++ post ∧
      evs.length = 20 ∧ (∀ e ∈ pre, e.isDispatch = false) ∧
      (∀ e ∈ post, e.isDispatch = false) := by
    obtain ⟨hP, -⟩ := prepare_state env rt n
    have hRp := ((prepare_emits env rt n).holds Host.init).2.2
    cases hp : prepare env rt n Host.init with
    | halt o h1 =>
      rw [run_of_prepare_halt env rt n hp] at hok
      rw [hp] at hRp
      exact absurd (Option.some.inj hok) (hRp o rfl).2
    | ok res h1 =>
      rw [hp] at hP
      simp only [Res.host] at hP
      rw [run_of_prepare_ok env rt n hp] at hok ⊢
      obtain ⟨⟨l2, hl2, hP2⟩, -, hR2⟩ := (build_emits_exit env rt res).holds h1
      cases hb : build env rt res h1 with
      | halt o h2 =>
        rw [bind_halt hb] at hok
        rw [hb] at hR2
        exact absurd (Option.some.inj hok) (hR2 o rfl)
      | ok program h2 =>
        rw [hb] at hl2
        simp only [Res.host] at hl2
        rw [bind_ok hb] at hok ⊢
        have hR3 := ((dispatch_emits env rt n res program).holds h2).2.2
        cases hd : dispatch env rt n res program h2 with
        | halt o h3 =>
          rw [bind_halt hd] at hok
          rw [hd] at hR3
          exact absurd (Option.some.inj hok) (hR3 o rfl).2
        | ok u h3 =>
          rw [bind_ok hd]
          obtain ⟨kernel, pre, evs, hlen, hpre, htr⟩ := dispatch_ok env rt n res program h2 h3 hd
          obtain ⟨⟨l4, hl4, hP4⟩, -, -⟩ := (conclude_emits env rt n res).holds h3
          refine ⟨h1.trace ++ l2 ++ pre, l4, res.commandQueue, kernel, evs, ?_, hlen, ?_, ?_⟩
          · rw [hl4, htr, hl2]
          · intro e he
            rcases List.mem_append.1 he with he | he
            · rcases List.mem_append.1 he with he | he
              · apply isDispatch_of_group
                rcases hP e he with hg | hg <;> rw [hg] <;> decide
              · apply isDispatch_of_group
                rcases hP2 e he with hg | hg <;> rw [hg] <;> decide
            · exact hpre e he
          · intro e he
            apply isDispatch_of_group
            rcases hP4 e he with hg | hg <;> rw [hg] <;> decide
  refine ⟨key, ?_⟩
  obtain ⟨pre, post, queue, kernel, evs, htr, hlen, hpre, hpost⟩ := key
  rw [htr, List.flatMap_append, List.flatMap_append, flatMap_localSizes_nil pre hpre,
    flatMap_localSizes_nil post hpost, flatMap_localSizes_laps, hlen]
  rfl

/-- The instance of C10 on the sample runtime and `n = 4`: the run returns 0, and its trace
has exactly 20 kernel submissions, none with a local size. -/
theorem dispatches_as_submitted_witness :
    (run (sampleEnv "kernel") (simulate sampleSim) 4 Host.init).outcome = some (.exit 0) ∧
      (run (sampleEnv "kernel") (simulate sampleSim) 4 Host.init).host.trace.flatMap
        Event.localSizes = List.replicate 20 none :=
  ⟨by decide!, (dispatches_as_submitted (sampleEnv "kernel") (simulate sampleSim) 4
    (by decide!)).2⟩

/-- C10 fails as stated: in this successful run the kernel is submitted with global size 128
and with `nullptr`, not 128, as local size; no submission of the run passes a local size. -/
theorem dispatch_passes_no_local_size :
    (run (sampleEnv "kernel") (simulate sampleSim) 4 Host.init).outcome = some (.exit 0) ∧
      Event.cl (.clEnqueueNDRangeKernel 6 16 1 none 128 none) CL_SUCCESS 21
        ∈ (run (sampleEnv "kernel") (simulate sampleSim) 4 Host.init).host.trace ∧
      some wg_size ∉ (run (sampleEnv "kernel") (simulate sampleSim) 4 Host.init).host.trace.flatMap
        Event.localSizes := by
  decide!

end DispatchClaims

section BuildFailureInstance

end BuildFailureInstance

end AplusB
